import Mathlib

set_option maxRecDepth 8000

/-!
Shallow embedding of the macro-matching meal allocation engine
(`meal_planner/recommender.py`, `meal_planner/planner.py`, constants from
`meal_planner/config.py`, data types from `meal_planner/models.py`).

Real-valued quantities are modelled as rationals (the Python code uses
floats; every operation involved — `+`, `-`, `*`, `/`, `abs`, `round`,
`max`, `min`, `floor` — is exact over ℚ).  Python's `random.randint`
draws are modelled by an injectable oracle: each selection slot consumes
one natural number `draw`, and the index used is `draw % top_n`, so every
possible run of the program corresponds to some oracle and vice versa.
The SQLite tables `meal_plans` / `meal_plan_entries` and the recipe store
are modelled as lists of rows inside a `DB` value; date values are
modelled as integers (days), which preserves the order structure that the
ISO-string comparisons in the SQL rely on.
-/

/-- `models.Nutrition` (per-serving nutritional values). -/
structure Nutrition where
  calories : ℚ
  protein_g : ℚ
  carbs_g : ℚ
  fat_g : ℚ
  fiber_g : ℚ
  sugar_g : ℚ
  sodium_mg : ℚ
deriving DecidableEq

/-- `Nutrition.scaled`: all seven fields multiplied by `servings`. -/
def Nutrition.scaled (n : Nutrition) (servings : ℚ) : Nutrition :=
  ⟨n.calories * servings, n.protein_g * servings, n.carbs_g * servings,
   n.fat_g * servings, n.fiber_g * servings, n.sugar_g * servings,
   n.sodium_mg * servings⟩

/-- `Nutrition.__add__`: fieldwise sum. -/
def Nutrition.add (a b : Nutrition) : Nutrition :=
  ⟨a.calories + b.calories, a.protein_g + b.protein_g, a.carbs_g + b.carbs_g,
   a.fat_g + b.fat_g, a.fiber_g + b.fiber_g, a.sugar_g + b.sugar_g,
   a.sodium_mg + b.sodium_mg⟩

/-- `Nutrition.zero()`. -/
def Nutrition.zero : Nutrition := ⟨0, 0, 0, 0, 0, 0, 0⟩

/-- `models.MacroTargets`. -/
structure MacroTargets where
  calories : ℚ
  protein_g : ℚ
  carbs_g : ℚ
  fat_g : ℚ
  bmr : ℚ
  tdee : ℚ
deriving DecidableEq

/-- `models.Recipe`, restricted to the fields the engine reads. -/
structure Recipe where
  id : Nat
  title : String
  meal_types : List String
  nutrition : Option Nutrition
deriving DecidableEq

/-- `config.VARIETY_WINDOW_DAYS = 21`. -/
def VARIETY_WINDOW_DAYS : ℤ := 21

/-- `config.MEALS_PER_DAY = 3`. -/
def MEALS_PER_DAY : ℕ := 3

/-- `config.MEAL_CALORIE_SPLITS` (0.25 = 1/4, 0.35 = 7/20, 0.40 = 2/5). -/
def MEAL_CALORIE_SPLITS (meal_type : String) : Option ℚ :=
  if meal_type = "breakfast" then some (1 / 4)
  else if meal_type = "lunch" then some (7 / 20)
  else if meal_type = "dinner" then some (2 / 5)
  else none

/-- `config.MACRO_SCORE_WEIGHTS` (1.5 = 3/2); only the four listed keys
are ever looked up. -/
def MACRO_SCORE_WEIGHTS (key : String) : ℚ :=
  if key = "calories" then 1
  else if key = "protein" then 3 / 2
  else if key = "carbs" then 1
  else if key = "fat" then 1
  else 0

/-- `recommender._recipe_score`. -/
def _recipe_score (recipe : Recipe) (target_nutrition : Nutrition)
    (servings : ℚ) : ℚ :=
  match recipe.nutrition with
  | none => 0
  | some n =>
    let actual := n.scaled servings
    let deviations : ℚ :=
      (if target_nutrition.calories > 0 then
        MACRO_SCORE_WEIGHTS "calories" *
          |actual.calories - target_nutrition.calories| / target_nutrition.calories
       else 0)
      + (if target_nutrition.protein_g > 0 then
        MACRO_SCORE_WEIGHTS "protein" *
          |actual.protein_g - target_nutrition.protein_g| / target_nutrition.protein_g
       else 0)
      + (if target_nutrition.carbs_g > 0 then
        MACRO_SCORE_WEIGHTS "carbs" *
          |actual.carbs_g - target_nutrition.carbs_g| / target_nutrition.carbs_g
       else 0)
      + (if target_nutrition.fat_g > 0 then
        MACRO_SCORE_WEIGHTS "fat" *
          |actual.fat_g - target_nutrition.fat_g| / target_nutrition.fat_g
       else 0)
    1 / (1 + deviations)

/-- `recommender._meal_target`: fraction of every (macro) field of the
daily targets; the three untouched fields are 0 in the constructed
`Nutrition`. -/
def _meal_target (targets : MacroTargets) (meal_type : String) : Nutrition :=
  let fraction := (MEAL_CALORIE_SPLITS meal_type).getD (1 / (MEALS_PER_DAY : ℚ))
  ⟨targets.calories * fraction, targets.protein_g * fraction,
   targets.carbs_g * fraction, targets.fat_g * fraction, 0, 0, 0⟩

/-- Python's built-in `round` on an exact value: round half to even. -/
def pyRound (q : ℚ) : ℤ :=
  let f : ℤ := Int.floor q
  let frac := q - (f : ℚ)
  if frac < 1 / 2 then f
  else if 1 / 2 < frac then f + 1
  else if f % 2 = 0 then f else f + 1

/-- `recommender._optimal_servings`. -/
def _optimal_servings (recipe : Recipe) (target : Nutrition) : ℚ :=
  match recipe.nutrition with
  | none => 1
  | some n =>
    if n.calories = 0 then 1
    else
      let raw := target.calories / n.calories
      max (1 / 2) (min 2 ((pyRound (raw * 4) : ℚ) / 4))

/-- Insertion step of a stable descending sort on the score component
(first component), matching Python's stable `list.sort(reverse=True)`. -/
def insertDesc (x : ℚ × Recipe × ℚ) :
    List (ℚ × Recipe × ℚ) → List (ℚ × Recipe × ℚ)
  | [] => [x]
  | y :: ys => if x.1 ≥ y.1 then x :: y :: ys else y :: insertDesc x ys

/-- Stable descending sort by score (`scored.sort(key=..., reverse=True)`). -/
def sortByScoreDesc (l : List (ℚ × Recipe × ℚ)) : List (ℚ × Recipe × ℚ) :=
  l.foldr insertDesc []

/-- Mutable loop state of `recommend_daily_meals`: the `selected` list,
the `used_today` id set (as a list, membership only) and the running
`consumed` total. -/
structure DayState where
  selected : List (String × Recipe × ℚ)
  used_today : List Nat
  consumed : Nutrition

/-- Tier-1 candidate filter of `recommend_daily_meals` (lines 102-107):
matching meal type, not recently used, not used today. -/
def tier1Filter (available : List Recipe) (recently_used_ids : List Nat)
    (used_today : List Nat) (meal_type : String) : List Recipe :=
  available.filter (fun r =>
    r.meal_types.contains meal_type && !(recently_used_ids.contains r.id)
      && !(used_today.contains r.id))

/-- Tier-2 relaxation (lines 110-115): drop the variety exclusion. -/
def tier2Filter (available : List Recipe) (used_today : List Nat)
    (meal_type : String) : List Recipe :=
  available.filter (fun r =>
    r.meal_types.contains meal_type && !(used_today.contains r.id))

/-- Tier-3 last resort (lines 117-119): any recipe not used today. -/
def tier3Filter (available : List Recipe) (used_today : List Nat) :
    List Recipe :=
  available.filter (fun r => !(used_today.contains r.id))

/-- The three-tier candidate computation of `recommend_daily_meals`
(lines 101-119). -/
def tierCandidates (available : List Recipe) (recently_used_ids : List Nat)
    (used_today : List Nat) (meal_type : String) : List Recipe :=
  let candidates :=
    if (tier1Filter available recently_used_ids used_today meal_type).length < 3
    then tier2Filter available used_today meal_type
    else tier1Filter available recently_used_ids used_today meal_type
  if candidates.isEmpty then tier3Filter available used_today
  else candidates

/-- Scoring, sorting and randomized top-5 pick of `recommend_daily_meals`
(lines 138-150), for one slot; `draw` is the oracle value consumed by
`random.randint(0, top_n - 1)`. -/
def pickScored (draw : ℕ) (meal_target : Nutrition) (candidates : List Recipe) :
    Option (Recipe × ℚ) :=
  if candidates.isEmpty then none
  else
    let scored := candidates.map (fun recipe =>
      let servings := _optimal_servings recipe meal_target
      (_recipe_score recipe meal_target servings, recipe, servings))
    let sorted := sortByScoreDesc scored
    let top_n := min 5 sorted.length
    let idx := if 1 < top_n then draw % top_n else 0
    (sorted.get? idx).map (fun t => (t.2.1, t.2.2))

/-- Target computation of one slot (lines 124-136): the clamped residual
for dinner, the fixed split for breakfast/lunch. -/
def slotTarget (targets : MacroTargets) (st : DayState) (meal_type : String) :
    Nutrition :=
  let remaining : Nutrition :=
    ⟨max 0 (targets.calories - st.consumed.calories),
     max 0 (targets.protein_g - st.consumed.protein_g),
     max 0 (targets.carbs_g - st.consumed.carbs_g),
     max 0 (targets.fat_g - st.consumed.fat_g), 0, 0, 0⟩
  if meal_type = "dinner" then remaining else _meal_target targets meal_type

/-- One iteration of the `for meal_type in meal_order` loop of
`recommend_daily_meals`.  The selected recipe always carries nutrition
data (it is drawn from `available`), so the `getD Nutrition.zero` default
in the `consumed` update is never hit. -/
def selectSlot (draw : ℕ) (targets : MacroTargets) (available : List Recipe)
    (recently_used_ids : List Nat) (st : DayState) (meal_type : String) :
    DayState :=
  let candidates := tierCandidates available recently_used_ids st.used_today meal_type
  match pickScored draw (slotTarget targets st meal_type) candidates with
  | none => st
  | some p =>
    ⟨st.selected ++ [(meal_type, p.1, p.2)],
     p.1.id :: st.used_today,
     st.consumed.add ((p.1.nutrition.getD Nutrition.zero).scaled p.2)⟩

/-- `recommender.recommend_daily_meals`, the `meal_order` loop unrolled
over its fixed three-element order. -/
def recommend_daily_meals (rng : ℕ → ℕ) (targets : MacroTargets)
    (all_recipes : List Recipe) (recently_used_ids : List Nat) :
    List (String × Recipe × ℚ) :=
  let available := all_recipes.filter (fun r => r.nutrition.isSome)
  let st1 := selectSlot (rng 0) targets available recently_used_ids
    ⟨[], [], Nutrition.zero⟩ "breakfast"
  let st2 := selectSlot (rng 1) targets available recently_used_ids st1 "lunch"
  let st3 := selectSlot (rng 2) targets available recently_used_ids st2 "dinner"
  st3.selected

/-- `models.MealPlanEntry`, doubling as a `meal_plan_entries` table row. -/
structure MealPlanEntry where
  meal_plan_id : Nat
  day_of_week : Nat
  meal_type : String
  recipe_id : Nat
  servings : ℚ
deriving DecidableEq

/-- A `meal_plans` table row. -/
structure PlanRow where
  id : Nat
  user_id : Nat
  week_start_date : ℤ
deriving DecidableEq

/-- `models.MealPlan` as produced by `generate_weekly_plan`. -/
structure MealPlan where
  user_id : Nat
  week_start_date : ℤ
  entries : List MealPlanEntry
deriving DecidableEq

/-- The persistent state read by the planner: the two plan tables and
the recipe store (`get_all_recipes`). -/
structure DB where
  meal_plans : List PlanRow
  meal_plan_entries : List MealPlanEntry
  recipes : List Recipe
deriving DecidableEq

/-- `planner._get_recently_used_recipe_ids`: the JOIN of
`meal_plan_entries` with `meal_plans` filtered by user and by
`week_start_date >= before_date - window_days`, projected to
`recipe_id` (the result is used only through membership, so `DISTINCT`
needs no separate modelling). -/
def _get_recently_used_recipe_ids (db : DB) (user_id : Nat) (before_date : ℤ)
    (window_days : ℤ) : List Nat :=
  let cutoff := before_date - window_days
  (db.meal_plan_entries.filter (fun e => db.meal_plans.any (fun p =>
      p.id == e.meal_plan_id && p.user_id == user_id
        && decide (cutoff ≤ p.week_start_date)))).map
    (fun e => e.recipe_id)

/-- The `for day in range(7)` loop of `generate_weekly_plan`, with the
`week_used` accumulator threaded through.  The `meal_plan_id` field of a
fresh entry is 0 ("will be set on save"). -/
def genLoop (rng : ℕ → ℕ → ℕ) (targets : MacroTargets)
    (all_recipes : List Recipe) (recently_used : List Nat) :
    List ℕ → List Nat → List MealPlanEntry
  | [], _ => []
  | day :: rest, week_used =>
    let daily := recommend_daily_meals (rng day) targets all_recipes
      (recently_used ++ week_used)
    let dayEntries := daily.map (fun t =>
      MealPlanEntry.mk 0 day t.1 t.2.1.id t.2.2)
    dayEntries ++ genLoop rng targets all_recipes recently_used rest
      (week_used ++ daily.map (fun t => t.2.1.id))

/-- `planner.generate_weekly_plan` (the plan-construction part; reading
the catalog and history from the store is the `db` argument). -/
def generate_weekly_plan (rng : ℕ → ℕ → ℕ) (db : DB) (user_id : Nat)
    (targets : MacroTargets) (week_start : ℤ) : MealPlan :=
  let recently_used := _get_recently_used_recipe_ids db user_id week_start
    VARIETY_WINDOW_DAYS
  ⟨user_id, week_start,
   genLoop rng targets db.recipes recently_used [0, 1, 2, 3, 4, 5, 6] []⟩

/-- `planner.regenerate_meal`: returns the updated database together
with the result (`none` = the Python `None`). -/
def regenerate_meal (rng : ℕ → ℕ) (db : DB) (plan_id : Nat)
    (day_of_week : Nat) (meal_type : String) (targets : MacroTargets) :
    DB × Option MealPlanEntry :=
  match db.meal_plans.find? (fun p => p.id == plan_id) with
  | none => (db, none)
  | some plan_row =>
    let used_ids := (db.meal_plan_entries.filter
      (fun e => e.meal_plan_id == plan_id)).map (fun e => e.recipe_id)
    let recently_used := _get_recently_used_recipe_ids db plan_row.user_id
      plan_row.week_start_date VARIETY_WINDOW_DAYS
    let exclusion := used_ids ++ recently_used
    let daily := recommend_daily_meals rng targets db.recipes exclusion
    match daily.find? (fun t => t.1 == meal_type) with
    | none => (db, none)
    | some t =>
      let newEntries := db.meal_plan_entries.map (fun e =>
        if e.meal_plan_id == plan_id && e.day_of_week == day_of_week
            && e.meal_type == meal_type then
          { e with recipe_id := t.2.1.id, servings := t.2.2 }
        else e)
      ({ db with meal_plan_entries := newEntries },
       some ⟨plan_id, day_of_week, meal_type, t.2.1.id, t.2.2⟩)

/-! ## Spec-side definitions used for refinement comparisons -/

/-- Modelled from the spec: §4.5 (claim C2) describes the recently-used
query as restricted to the half-open interval
`[before_date - window_days, before_date)`; this is the set the spec's
words describe (the source query has no upper bound). -/
def recently_used_spec_interval (db : DB) (user_id : Nat) (before_date : ℤ)
    (window_days : ℤ) : List Nat :=
  (db.meal_plan_entries.filter (fun e => db.meal_plans.any (fun p =>
      p.id == e.meal_plan_id && p.user_id == user_id
        && decide (before_date - window_days ≤ p.week_start_date)
        && decide (p.week_start_date < before_date)))).map
    (fun e => e.recipe_id)

/-- Modelled from the spec: §4.7 (claim C1) describes regeneration as
running the per-slot algorithm for the single requested slot only, with
the full daily target fraction for that meal type (never a residual) and
an empty same-day exclusion; the exclusion set and plan lookup are as in
the source. -/
def regen_single_slot_spec (rng : ℕ → ℕ) (db : DB) (plan_id : Nat)
    (meal_type : String) (targets : MacroTargets) : Option (Recipe × ℚ) :=
  match db.meal_plans.find? (fun p => p.id == plan_id) with
  | none => none
  | some plan_row =>
    let used_ids := (db.meal_plan_entries.filter
      (fun e => e.meal_plan_id == plan_id)).map (fun e => e.recipe_id)
    let recently_used := _get_recently_used_recipe_ids db plan_row.user_id
      plan_row.week_start_date VARIETY_WINDOW_DAYS
    let exclusion := used_ids ++ recently_used
    let available := db.recipes.filter (fun r => r.nutrition.isSome)
    let candidates := tierCandidates available exclusion [] meal_type
    pickScored (rng 0) (_meal_target targets meal_type) candidates

/-- Modelled from the spec: the scoring formula of claim C7 —
`1 / (1 + Σ weight_i * |actual_i - target_i| / target_i)` over calories,
protein, carbs, fat, skipping exactly the terms whose target is 0, with
weights 1, 3/2, 1, 1. -/
def recipe_score_formula (n : Nutrition) (target : Nutrition)
    (servings : ℚ) : ℚ :=
  let actual := n.scaled servings
  let deviations : ℚ :=
    (if target.calories = 0 then 0 else
      1 * |actual.calories - target.calories| / target.calories)
    + (if target.protein_g = 0 then 0 else
      (3 / 2) * |actual.protein_g - target.protein_g| / target.protein_g)
    + (if target.carbs_g = 0 then 0 else
      1 * |actual.carbs_g - target.carbs_g| / target.carbs_g)
    + (if target.fat_g = 0 then 0 else
      1 * |actual.fat_g - target.fat_g| / target.fat_g)
  1 / (1 + deviations)

/-! ## Structural lemmas about sorting and slot selection -/

theorem insertDesc_length (x : ℚ × Recipe × ℚ) (l : List (ℚ × Recipe × ℚ)) :
    (insertDesc x l).length = l.length + 1 := by
  induction l with
  | nil => rfl
  | cons y ys ih =>
    unfold insertDesc
    split
    · simp
    · simp [ih]

theorem sortByScoreDesc_length (l : List (ℚ × Recipe × ℚ)) :
    (sortByScoreDesc l).length = l.length := by
  induction l with
  | nil => rfl
  | cons x xs ih =>
    simp only [sortByScoreDesc, List.foldr_cons] at *
    rw [insertDesc_length, ih, List.length_cons]

theorem mem_insertDesc {a x : ℚ × Recipe × ℚ} {l : List (ℚ × Recipe × ℚ)} :
    a ∈ insertDesc x l ↔ a = x ∨ a ∈ l := by
  induction l with
  | nil => simp [insertDesc]
  | cons y ys ih =>
    unfold insertDesc
    split
    · simp
    · simp only [List.mem_cons, ih]
      tauto

theorem mem_sortByScoreDesc {a : ℚ × Recipe × ℚ} {l : List (ℚ × Recipe × ℚ)} :
    a ∈ sortByScoreDesc l ↔ a ∈ l := by
  induction l with
  | nil => simp [sortByScoreDesc]
  | cons x xs ih =>
    simp only [sortByScoreDesc, List.foldr_cons] at *
    rw [mem_insertDesc, ih, List.mem_cons]

theorem pickScored_nil (draw : ℕ) (tgt : Nutrition) :
    pickScored draw tgt [] = none := rfl

/-- On a nonempty candidate list the randomized pick always returns a
candidate of that list. -/
theorem pickScored_some (draw : ℕ) (tgt : Nutrition) {cands : List Recipe}
    (h : cands ≠ []) :
    ∃ r s, pickScored draw tgt cands = some (r, s) ∧ r ∈ cands := by
  have hne : cands.isEmpty = false := by simpa [List.isEmpty_iff] using h
  simp only [pickScored, hne, Bool.false_eq_true, if_false]
  set scored := cands.map (fun recipe =>
    (_recipe_score recipe tgt (_optimal_servings recipe tgt), recipe,
      _optimal_servings recipe tgt)) with hscored
  set sorted := sortByScoreDesc scored with hsorted
  have hlen : sorted.length = cands.length := by
    rw [hsorted, sortByScoreDesc_length, hscored, List.length_map]
  have hpos : 0 < sorted.length := by
    rw [hlen]
    exact List.length_pos.mpr h
  set idx := (if 1 < min 5 sorted.length then draw % min 5 sorted.length else 0)
    with hidxdef
  have hidx : idx < sorted.length := by
    rw [hidxdef]
    split
    · exact lt_of_lt_of_le (Nat.mod_lt _ (by omega)) (Nat.min_le_right _ _)
    · exact hpos
  have ht : sorted.get? idx = some (sorted.get ⟨idx, hidx⟩) :=
    List.get?_eq_get hidx
  have htmem : sorted.get ⟨idx, hidx⟩ ∈ sorted := List.get_mem _ _ _
  have htmem2 : sorted.get ⟨idx, hidx⟩ ∈ scored := mem_sortByScoreDesc.mp htmem
  obtain ⟨r, hr, hrt⟩ := List.mem_map.mp htmem2
  refine ⟨(sorted.get ⟨idx, hidx⟩).2.1, (sorted.get ⟨idx, hidx⟩).2.2, ?_, ?_⟩
  · rw [ht, Option.map_some']
  · have : (sorted.get ⟨idx, hidx⟩).2.1 = r := by rw [← hrt]
    rw [this]
    exact hr

/-- Unpacked membership in the tier-1 filter. -/
theorem tier1Filter_mem {r : Recipe} {available : List Recipe}
    {recently used : List Nat} {mt : String}
    (h : r ∈ tier1Filter available recently used mt) :
    r ∈ available ∧ r.meal_types.contains mt = true ∧
      recently.contains r.id = false ∧ used.contains r.id = false := by
  rcases List.mem_filter.mp h with ⟨h1, h2⟩
  simp only [Bool.and_eq_true, Bool.not_eq_true'] at h2
  exact ⟨h1, h2.1.1, h2.1.2, h2.2⟩

/-- Unpacked membership in the tier-2 filter. -/
theorem tier2Filter_mem {r : Recipe} {available : List Recipe}
    {used : List Nat} {mt : String}
    (h : r ∈ tier2Filter available used mt) :
    r ∈ available ∧ r.meal_types.contains mt = true ∧
      used.contains r.id = false := by
  rcases List.mem_filter.mp h with ⟨h1, h2⟩
  simp only [Bool.and_eq_true, Bool.not_eq_true'] at h2
  exact ⟨h1, h2.1, h2.2⟩

/-- Unpacked membership in the tier-3 filter. -/
theorem tier3Filter_mem {r : Recipe} {available : List Recipe}
    {used : List Nat} (h : r ∈ tier3Filter available used) :
    r ∈ available ∧ used.contains r.id = false := by
  rcases List.mem_filter.mp h with ⟨h1, h2⟩
  exact ⟨h1, by simpa using h2⟩

/-- Every tier candidate is an available recipe not yet used today. -/
theorem tierCandidates_mem {r : Recipe} {available : List Recipe}
    {recently used : List Nat} {mt : String}
    (h : r ∈ tierCandidates available recently used mt) :
    r ∈ available ∧ used.contains r.id = false := by
  simp only [tierCandidates] at h
  split at h <;> split at h
  all_goals first
    | exact ⟨(tier3Filter_mem h).1, (tier3Filter_mem h).2⟩
    | exact ⟨(tier2Filter_mem h).1, (tier2Filter_mem h).2.2⟩
    | exact ⟨(tier1Filter_mem h).1, (tier1Filter_mem h).2.2.2⟩

/-- When tier 1 already has at least 3 candidates, no relaxation happens:
the candidate pool is exactly the tier-1 filter. -/
theorem tierCandidates_of_big_tier1 {available : List Recipe}
    {recently used : List Nat} {mt : String}
    (h : 3 ≤ (tier1Filter available recently used mt).length) :
    tierCandidates available recently used mt
      = tier1Filter available recently used mt := by
  have h3 : ¬ ((tier1Filter available recently used mt).length < 3) := by omega
  have hnil : tier1Filter available recently used mt ≠ [] := by
    intro hn
    rw [hn] at h
    simp at h
  have hne : (tier1Filter available recently used mt).isEmpty = false := by
    simpa [List.isEmpty_iff] using hnil
  simp only [tierCandidates]
  rw [if_neg h3, hne]
  simp

/-- Dichotomy for one slot iteration: either no candidate survives any
tier and the state is unchanged, or one tuple tagged with this meal type
is appended, its recipe drawn from the tier candidates. -/
theorem selectSlot_cases (draw : ℕ) (targets : MacroTargets)
    (available : List Recipe) (recently : List Nat) (st : DayState)
    (mt : String) :
    (tierCandidates available recently st.used_today mt = [] ∧
      selectSlot draw targets available recently st mt = st) ∨
    (∃ r s, r ∈ tierCandidates available recently st.used_today mt ∧
      (selectSlot draw targets available recently st mt).selected
          = st.selected ++ [(mt, r, s)] ∧
      (selectSlot draw targets available recently st mt).used_today
          = r.id :: st.used_today) := by
  by_cases hc : tierCandidates available recently st.used_today mt = []
  · left
    exact ⟨hc, by simp only [selectSlot, hc, pickScored_nil]⟩
  · right
    obtain ⟨r, s, hpick, hmem⟩ :=
      pickScored_some draw (slotTarget targets st mt) hc
    exact ⟨r, s, hmem, by simp only [selectSlot, hpick],
      by simp only [selectSlot, hpick]⟩

/-- A slot iteration grows `used_today` by at most one id. -/
theorem selectSlot_used_today_length (draw : ℕ) (targets : MacroTargets)
    (available : List Recipe) (recently : List Nat) (st : DayState)
    (mt : String) :
    (selectSlot draw targets available recently st mt).used_today.length
      ≤ st.used_today.length + 1 := by
  rcases selectSlot_cases draw targets available recently st mt with
    ⟨-, heq⟩ | ⟨r, s, -, -, hu⟩
  · rw [heq]
    omega
  · rw [hu, List.length_cons]

/-- If no candidate survived any tier, then in particular the last-resort
tier was empty: every available recipe is already used today. -/
theorem tierCandidates_nil_tier3 {available : List Recipe}
    {recently used : List Nat} {mt : String}
    (h : tierCandidates available recently used mt = []) :
    tier3Filter available used = [] := by
  simp only [tierCandidates] at h
  split at h <;> split at h <;>
    first
      | exact h
      | simp_all [List.isEmpty_iff]

/-- Removing an element that fails the filter strictly shrinks it. -/
theorem length_filter_lt {α : Type} (l : List α) (p : α → Bool) (x : α)
    (hx : x ∈ l) (hpx : p x = false) : (l.filter p).length < l.length := by
  induction l with
  | nil => cases hx
  | cons a as ih =>
    rcases List.mem_cons.mp hx with rfl | hmem
    · simp only [List.filter_cons]
      rw [if_neg (by simp [hpx])]
      have := List.length_filter_le p as
      simp only [List.length_cons]
      omega
    · simp only [List.filter_cons]
      split
      · simp only [List.length_cons]
        exact Nat.succ_lt_succ (ih hmem)
      · have := ih hmem
        simp only [List.length_cons]
        omega

/-- After a slot iteration, the set of available-but-unused recipes is
either empty or strictly smaller than before. -/
theorem selectSlot_tier3_progress (draw : ℕ) (targets : MacroTargets)
    (available : List Recipe) (recently : List Nat) (st : DayState)
    (mt : String) :
    tier3Filter available
        (selectSlot draw targets available recently st mt).used_today = [] ∨
    (tier3Filter available
        (selectSlot draw targets available recently st mt).used_today).length
      < (tier3Filter available st.used_today).length := by
  rcases selectSlot_cases draw targets available recently st mt with
    ⟨hnil, heq⟩ | ⟨r, s, hmem, -, hused⟩
  · left
    rw [heq]
    exact tierCandidates_nil_tier3 hnil
  · right
    rw [hused]
    have hr := tierCandidates_mem hmem
    have hrewrite : tier3Filter available (r.id :: st.used_today)
        = List.filter (fun q => !(q.id == r.id))
            (tier3Filter available st.used_today) := by
      simp only [tier3Filter, List.filter_filter]
      apply List.filter_congr
      intro a _
      simp only [List.contains_cons, Bool.not_or]
    rw [hrewrite]
    apply length_filter_lt _ _ r
    · exact List.mem_filter.mpr ⟨hr.1, by simp only [hr.2, Bool.not_false]⟩
    · simp

/-- Dropping one id from a pool with distinct recipe ids removes at most
one recipe from a filter. -/
theorem length_filter_ne_id {l : List Recipe}
    (hnd : (l.map Recipe.id).Nodup) (q : Recipe → Bool) (u : Nat) :
    (l.filter q).length - 1
      ≤ (l.filter (fun r => q r && !(r.id == u))).length := by
  induction l with
  | nil => simp
  | cons a as ih =>
    rw [List.map_cons, List.nodup_cons] at hnd
    obtain ⟨hnotin, hnd2⟩ := hnd
    by_cases hq : q a = true
    · by_cases hau : a.id = u
      · have hsame : as.filter (fun r => q r && !(r.id == u)) = as.filter q := by
          apply List.filter_congr
          intro r hr
          have hne : r.id ≠ u := by
            intro hru
            apply hnotin
            rw [hau, ← hru]
            exact List.mem_map_of_mem Recipe.id hr
          simp [hne]
        rw [List.filter_cons, if_pos hq, List.filter_cons,
          if_neg (by simp [hau]), hsame, List.length_cons]
        omega
      · rw [List.filter_cons, if_pos hq, List.filter_cons,
          if_pos (by simp [hq, hau]), List.length_cons, List.length_cons]
        have := ih hnd2
        omega
    · rw [List.filter_cons, if_neg hq, List.filter_cons,
        if_neg (by simp [Bool.and_eq_true, hq])]
      exact ih hnd2

/-- Excluding a list of ids removes at most `used.length` recipes from a
filter over a pool with distinct recipe ids. -/
theorem length_filter_not_contains {l : List Recipe}
    (hnd : (l.map Recipe.id).Nodup) (p : Recipe → Bool) (used : List Nat) :
    (l.filter p).length - used.length
      ≤ (l.filter (fun r => p r && !(used.contains r.id))).length := by
  induction used with
  | nil =>
    have hbase : l.filter (fun r => p r && !(([] : List Nat).contains r.id))
        = l.filter p := by
      apply List.filter_congr
      intro r _
      simp
    rw [hbase]
    simp
  | cons u us ih =>
    have hstep := length_filter_ne_id hnd
      (fun r => p r && !(us.contains r.id)) u
    have hcongr : l.filter (fun r => p r && !((u :: us).contains r.id))
        = l.filter (fun r => (p r && !(us.contains r.id)) && !(r.id == u)) := by
      apply List.filter_congr
      intro r _
      simp only [List.contains_cons, Bool.not_or]
      cases hp : p r <;> cases hu : r.id == u <;>
        cases hc : List.contains us r.id <;> simp
    rw [hcongr]
    simp only [List.length_cons]
    omega

/-- The tier-1 pool shrinks by at most one recipe per id used today. -/
theorem tier1Filter_length_ge {available : List Recipe}
    (hnd : (available.map Recipe.id).Nodup) (excl used : List Nat)
    (mt : String) :
    (tier1Filter available excl [] mt).length - used.length
      ≤ (tier1Filter available excl used mt).length := by
  have hmain := length_filter_not_contains hnd
    (fun r => r.meal_types.contains mt && !(excl.contains r.id)) used
  have hbase : tier1Filter available excl [] mt
      = available.filter
          (fun r => r.meal_types.contains mt && !(excl.contains r.id)) := by
    apply List.filter_congr
    intro r _
    simp
  rw [hbase]
  exact hmain

theorem contains_false_not_mem {l : List Nat} {x : Nat}
    (h : l.contains x = false) : x ∉ l := by simpa using h

/-- An empty last-resort pool forces empty tier candidates. -/
theorem tier3_nil_tierCandidates {available : List Recipe}
    {excl used : List Nat} {mt : String}
    (h : tier3Filter available used = []) :
    tierCandidates available excl used mt = [] := by
  have h1 : tier1Filter available excl used mt = [] := by
    rw [List.eq_nil_iff_forall_not_mem]
    intro r hr
    obtain ⟨hav, -, -, hu⟩ := tier1Filter_mem hr
    have hmem : r ∈ tier3Filter available used :=
      List.mem_filter.mpr ⟨hav, by simp only [hu, Bool.not_false]⟩
    rw [h] at hmem
    cases hmem
  have h2 : tier2Filter available used mt = [] := by
    rw [List.eq_nil_iff_forall_not_mem]
    intro r hr
    obtain ⟨hav, -, hu⟩ := tier2Filter_mem hr
    have hmem : r ∈ tier3Filter available used :=
      List.mem_filter.mpr ⟨hav, by simp only [hu, Bool.not_false]⟩
    rw [h] at hmem
    cases hmem
  simp [tierCandidates, h1, h2, h]

/-- Growing the used set can only keep the last-resort pool empty. -/
theorem tier3Filter_cons_nil {available : List Recipe} {used : List Nat}
    (h : tier3Filter available used = []) (x : Nat) :
    tier3Filter available (x :: used) = [] := by
  rw [List.eq_nil_iff_forall_not_mem]
  intro r hr
  obtain ⟨hav, hu⟩ := tier3Filter_mem hr
  rw [List.contains_cons, Bool.or_eq_false_iff] at hu
  have hmem : r ∈ tier3Filter available used :=
    List.mem_filter.mpr ⟨hav, by simp only [hu.2, Bool.not_false]⟩
  rw [h] at hmem
  cases hmem

/-- A slot with no surviving candidate leaves the state unchanged. -/
theorem selectSlot_of_nil {draw : ℕ} {targets : MacroTargets}
    {available : List Recipe} {recently : List Nat} {st : DayState}
    {mt : String}
    (h : tierCandidates available recently st.used_today mt = []) :
    selectSlot draw targets available recently st mt = st := by
  simp only [selectSlot, h, pickScored_nil]

/-- Master analysis of one daily run (three chained slots): the meal-type
tags are distinct, the recipe ids are distinct, and every selected tuple
came from its slot's tier candidates at a same-day exclusion of at most
two ids; a dinner tuple moreover certifies that the last-resort pool was
still nonempty after losing at least two recipes. -/
theorem three_slot_master (d0 d1 d2 : ℕ) (targets : MacroTargets)
    (avail : List Recipe) (excl : List Nat) (st1 st2 st3 : DayState)
    (h1 : st1 = selectSlot d0 targets avail excl ⟨[], [], Nutrition.zero⟩
      "breakfast")
    (h2 : st2 = selectSlot d1 targets avail excl st1 "lunch")
    (h3 : st3 = selectSlot d2 targets avail excl st2 "dinner") :
    (st3.selected.map (fun t => t.1)).Nodup ∧
    (st3.selected.map (fun t => t.2.1.id)).Nodup ∧
    ∀ t ∈ st3.selected,
      ∃ used : List Nat, used.length ≤ 2 ∧
        t.2.1 ∈ tierCandidates avail excl used t.1 ∧
        (t.1 = "dinner" →
          tier3Filter avail used ≠ [] ∧
          (tier3Filter avail used).length + 2
            ≤ (tier3Filter avail ([] : List Nat)).length) := by
  have hu0 : (⟨[], [], Nutrition.zero⟩ : DayState).used_today = [] := rfl
  rcases selectSlot_cases d0 targets avail excl ⟨[], [], Nutrition.zero⟩
      "breakfast" with ⟨hcb, hb⟩ | ⟨rb, sb, hmb, hsb, hub⟩
  · -- no breakfast: the whole day is empty
    rw [← h1] at hb
    have ht3 : tier3Filter avail ([] : List Nat) = [] := by
      have := tierCandidates_nil_tier3 hcb
      simpa [hu0] using tierCandidates_nil_tier3 hcb
    have hl : st2 = st1 := by
      rw [h2]
      apply selectSlot_of_nil
      apply tier3_nil_tierCandidates
      rw [hb, hu0]
      exact ht3
    have hd : st3 = st2 := by
      rw [h3]
      apply selectSlot_of_nil
      apply tier3_nil_tierCandidates
      rw [hl, hb, hu0]
      exact ht3
    rw [hd, hl, hb]
    simp
  · -- breakfast selected rb
    rw [← h1] at hsb hub
    rw [hu0] at hub
    have hsb0 : st1.selected = [("breakfast", rb, sb)] := by
      rw [hsb]
      rfl
    rcases selectSlot_cases d1 targets avail excl st1 "lunch" with
      ⟨hcl, hl⟩ | ⟨rl, sl, hml, hsl, hul⟩
    · -- no lunch: the last-resort pool at st1 is empty, so no dinner either
      rw [← h2] at hl
      have ht31 : tier3Filter avail st1.used_today = [] :=
        tierCandidates_nil_tier3 hcl
      have hd : st3 = st2 := by
        rw [h3]
        apply selectSlot_of_nil
        apply tier3_nil_tierCandidates
        rw [hl]
        exact ht31
      rw [hd, hl, hsb0]
      refine ⟨by simp, by simp, ?_⟩
      intro t ht
      rw [List.mem_singleton] at ht
      subst ht
      refine ⟨[], by simp, ?_, by simp⟩
      simpa [hu0] using hmb
    · -- lunch selected rl
      rw [← h2] at hsl hul
      rw [hub] at hul
      have hrl_ne : rl.id ≠ rb.id := by
        have := (tierCandidates_mem hml).2
        rw [hub, List.contains_cons, Bool.or_eq_false_iff] at this
        simpa using this.1
      have hsl0 : st2.selected = [("breakfast", rb, sb), ("lunch", rl, sl)] := by
        rw [hsl, hsb0]
        rfl
      have hprog1 := selectSlot_tier3_progress d0 targets avail excl
        ⟨[], [], Nutrition.zero⟩ "breakfast"
      rw [← h1, hub, hu0] at hprog1
      have hprog2 := selectSlot_tier3_progress d1 targets avail excl st1 "lunch"
      rw [← h2, hul, hub] at hprog2
      rcases selectSlot_cases d2 targets avail excl st2 "dinner" with
        ⟨hcd, hd⟩ | ⟨rd, sd, hmd, hsd, hud⟩
      · -- no dinner
        rw [← h3] at hd
        rw [hd, hsl0]
        refine ⟨by simp, by simp only [List.map_cons, List.map_nil]; simp; exact hrl_ne.symm, ?_⟩
        intro t ht
        rw [List.mem_cons, List.mem_singleton] at ht
        rcases ht with rfl | rfl
        · refine ⟨[], by simp, ?_, by simp⟩
          simpa [hu0] using hmb
        · refine ⟨[rb.id], by simp, ?_, by simp⟩
          simpa [hub] using hml
      · -- dinner selected rd
        rw [← h3] at hsd hud
        rw [hul] at hud
        have hmd2 := hmd
        rw [hul] at hmd2
        have hrd_ne : rd.id ≠ rl.id ∧ rd.id ≠ rb.id := by
          have := (tierCandidates_mem hmd2).2
          rw [List.contains_cons, Bool.or_eq_false_iff,
            List.contains_cons, Bool.or_eq_false_iff] at this
          constructor
          · simpa using this.1
          · simpa using this.2.1
        have hsd0 : st3.selected
            = [("breakfast", rb, sb), ("lunch", rl, sl), ("dinner", rd, sd)] := by
          rw [hsd, hsl0]
          rfl
        have ht3ne : tier3Filter avail (rl.id :: rb.id :: []) ≠ [] := by
          intro hnil
          have : tierCandidates avail excl (rl.id :: rb.id :: []) "dinner" = [] :=
            tier3_nil_tierCandidates hnil
          rw [this] at hmd2
          cases hmd2
        have hlen : (tier3Filter avail (rl.id :: rb.id :: [])).length + 2
            ≤ (tier3Filter avail ([] : List Nat)).length := by
          rcases hprog2 with hnil2 | hlt2
          · exact absurd hnil2 ht3ne
          · rcases hprog1 with hnil1 | hlt1
            · exact absurd (tier3Filter_cons_nil hnil1 rl.id) ht3ne
            · omega
        rw [hsd0]
        refine ⟨by simp,
          by simp; exact ⟨⟨hrl_ne.symm, hrd_ne.2.symm⟩, hrd_ne.1.symm⟩, ?_⟩
        intro t ht
        rw [List.mem_cons, List.mem_cons, List.mem_singleton] at ht
        rcases ht with rfl | rfl | rfl
        · refine ⟨[], by simp, ?_, by simp⟩
          simpa [hu0] using hmb
        · refine ⟨[rb.id], by simp, ?_, by simp⟩
          simpa [hub] using hml
        · exact ⟨rl.id :: rb.id :: [], by simp, hmd2, fun _ => ⟨ht3ne, hlen⟩⟩

theorem selectSlot_pick_none {draw : ℕ} {targets : MacroTargets}
    {avail : List Recipe} {recently : List Nat} {st : DayState} {mt : String}
    (h : pickScored draw (slotTarget targets st mt)
      (tierCandidates avail recently st.used_today mt) = none) :
    selectSlot draw targets avail recently st mt = st := by
  simp only [selectSlot, h]

theorem selectSlot_pick_some {draw : ℕ} {targets : MacroTargets}
    {avail : List Recipe} {recently : List Nat} {st : DayState} {mt : String}
    {p : Recipe × ℚ}
    (h : pickScored draw (slotTarget targets st mt)
      (tierCandidates avail recently st.used_today mt) = some p) :
    selectSlot draw targets avail recently st mt
      = ⟨st.selected ++ [(mt, p.1, p.2)], p.1.id :: st.used_today,
         st.consumed.add ((p.1.nutrition.getD Nutrition.zero).scaled p.2)⟩ := by
  simp only [selectSlot, h]

/-- The master analysis transported to `recommend_daily_meals`. -/
theorem recommend_master (rng : ℕ → ℕ) (targets : MacroTargets)
    (recipes : List Recipe) (excl : List Nat) :
    ((recommend_daily_meals rng targets recipes excl).map (fun t => t.1)).Nodup ∧
    ((recommend_daily_meals rng targets recipes excl).map
        (fun t => t.2.1.id)).Nodup ∧
    ∀ t ∈ recommend_daily_meals rng targets recipes excl,
      ∃ used : List Nat, used.length ≤ 2 ∧
        t.2.1 ∈ tierCandidates (recipes.filter (fun r => r.nutrition.isSome))
          excl used t.1 ∧
        (t.1 = "dinner" →
          tier3Filter (recipes.filter (fun r => r.nutrition.isSome)) used ≠ [] ∧
          (tier3Filter (recipes.filter (fun r => r.nutrition.isSome))
              used).length + 2
            ≤ (tier3Filter (recipes.filter (fun r => r.nutrition.isSome))
                ([] : List Nat)).length) :=
  three_slot_master (rng 0) (rng 1) (rng 2) targets
    (recipes.filter (fun r => r.nutrition.isSome)) excl _ _ _ rfl rfl rfl

/-- Searching a daily run's output for the breakfast tuple reproduces the
first slot's pick: a single-slot selection against the full breakfast
fraction of the daily target, with an empty same-day exclusion. -/
theorem three_slot_find_breakfast (d0 d1 d2 : ℕ) (targets : MacroTargets)
    (avail : List Recipe) (excl : List Nat) (st1 st2 st3 : DayState)
    (h1 : st1 = selectSlot d0 targets avail excl ⟨[], [], Nutrition.zero⟩
      "breakfast")
    (h2 : st2 = selectSlot d1 targets avail excl st1 "lunch")
    (h3 : st3 = selectSlot d2 targets avail excl st2 "dinner") :
    st3.selected.find? (fun t => t.1 == "breakfast")
      = (pickScored d0 (_meal_target targets "breakfast")
          (tierCandidates avail excl [] "breakfast")).map
        (fun p => ("breakfast", p.1, p.2)) := by
  have hsel2 : ∃ tail2 : List (String × Recipe × ℚ),
      st2.selected = st1.selected ++ tail2 ∧ ∀ t ∈ tail2, t.1 = "lunch" := by
    rcases selectSlot_cases d1 targets avail excl st1 "lunch" with
      ⟨-, hl⟩ | ⟨rl, sl, -, hsl, -⟩
    · rw [← h2] at hl
      exact ⟨[], by simp [hl], by simp⟩
    · rw [← h2] at hsl
      exact ⟨[("lunch", rl, sl)], hsl, by simp⟩
  have hsel3 : ∃ tail : List (String × Recipe × ℚ),
      st3.selected = st1.selected ++ tail ∧
        ∀ t ∈ tail, t.1 = "lunch" ∨ t.1 = "dinner" := by
    obtain ⟨tail2, ht2, htl2⟩ := hsel2
    rcases selectSlot_cases d2 targets avail excl st2 "dinner" with
      ⟨-, hd⟩ | ⟨rd, sd, -, hsd, -⟩
    · rw [← h3] at hd
      refine ⟨tail2, by rw [hd, ht2], fun t ht => Or.inl (htl2 t ht)⟩
    · rw [← h3] at hsd
      refine ⟨tail2 ++ [("dinner", rd, sd)],
        by rw [hsd, ht2, List.append_assoc], ?_⟩
      intro t ht
      rcases List.mem_append.mp ht with h | h
      · exact Or.inl (htl2 t h)
      · rw [List.mem_singleton] at h
        subst h
        exact Or.inr rfl
  obtain ⟨tail, htail, htmt⟩ := hsel3
  have htailnone : tail.find? (fun t => t.1 == "breakfast") = none := by
    rw [List.find?_eq_none]
    intro t ht
    rcases htmt t ht with h | h <;> simp [h]
  cases hpick : pickScored d0 (_meal_target targets "breakfast")
      (tierCandidates avail excl [] "breakfast") with
  | none =>
    have hst1 : st1 = ⟨[], [], Nutrition.zero⟩ := by
      rw [h1]
      exact selectSlot_pick_none hpick
    rw [htail, hst1]
    simpa using htailnone
  | some p =>
    have hst1 : st1 = ⟨[("breakfast", p.1, p.2)], [p.1.id],
        Nutrition.zero.add ((p.1.nutrition.getD Nutrition.zero).scaled p.2)⟩ := by
      rw [h1]
      exact selectSlot_pick_some hpick
    rw [htail, hst1]
    have hcons : (("breakfast", p.1, p.2) :: tail).find?
        (fun t => t.1 == "breakfast") = some ("breakfast", p.1, p.2) := by
      apply List.find?_cons_of_pos
      simp
    simpa using hcons

/-! ## Claim theorems -/

/-- C9: `_meal_target` multiplies every macro field by the fixed fraction
1/4 (breakfast), 7/20 (lunch), 2/5 (dinner), falls back to the equal
split 1/3 for an unknown meal type, and the three per-meal calorie
targets sum exactly back to the daily calorie target. -/
theorem meal_target_fractions_and_sum (T : MacroTargets) (mt : String)
    (hmt : mt ≠ "breakfast" ∧ mt ≠ "lunch" ∧ mt ≠ "dinner") :
    _meal_target T "breakfast"
      = ⟨T.calories * (1 / 4), T.protein_g * (1 / 4), T.carbs_g * (1 / 4),
         T.fat_g * (1 / 4), 0, 0, 0⟩ ∧
    _meal_target T "lunch"
      = ⟨T.calories * (7 / 20), T.protein_g * (7 / 20), T.carbs_g * (7 / 20),
         T.fat_g * (7 / 20), 0, 0, 0⟩ ∧
    _meal_target T "dinner"
      = ⟨T.calories * (2 / 5), T.protein_g * (2 / 5), T.carbs_g * (2 / 5),
         T.fat_g * (2 / 5), 0, 0, 0⟩ ∧
    _meal_target T mt
      = ⟨T.calories * (1 / 3), T.protein_g * (1 / 3), T.carbs_g * (1 / 3),
         T.fat_g * (1 / 3), 0, 0, 0⟩ ∧
    (_meal_target T "breakfast").calories + (_meal_target T "lunch").calories
        + (_meal_target T "dinner").calories = T.calories := by
  refine ⟨?_, ?_, ?_, ?_, ?_⟩
  · simp [_meal_target, MEAL_CALORIE_SPLITS]
  · simp [_meal_target, MEAL_CALORIE_SPLITS]
  · simp [_meal_target, MEAL_CALORIE_SPLITS]
  · simp [_meal_target, MEAL_CALORIE_SPLITS, hmt.1, hmt.2.1, hmt.2.2,
      MEALS_PER_DAY]
  · simp [_meal_target, MEAL_CALORIE_SPLITS]
    ring

/-- C9 witness: the equal-split fallback at the unknown type "snack". -/
theorem meal_target_fractions_witness :
    (_meal_target ⟨2200, 165, 220, 73, 1700, 2200⟩ "snack").calories
      = 2200 * (1 / 3) :=
  congrArg Nutrition.calories
    ((meal_target_fractions_and_sum ⟨2200, 165, 220, 73, 1700, 2200⟩ "snack"
      (by simp)).2.2.2.1)

/-- C8: `_optimal_servings` returns 1 when nutrition is absent or has zero
calories, otherwise the calorie ratio quantized to the nearest quarter and
clamped to [1/2, 2]; the result always lies in [1/2, 2] and is an integer
multiple of 1/4. -/
theorem optimal_servings_spec (recipe : Recipe) (target : Nutrition) :
    ((recipe.nutrition = none → _optimal_servings recipe target = 1) ∧
     (∀ n, recipe.nutrition = some n → n.calories = 0 →
        _optimal_servings recipe target = 1) ∧
     (∀ n, recipe.nutrition = some n → n.calories ≠ 0 →
        _optimal_servings recipe target
          = max (1 / 2) (min 2
              ((pyRound (target.calories / n.calories * 4) : ℚ) / 4)))) ∧
    (1 / 2 ≤ _optimal_servings recipe target ∧
     _optimal_servings recipe target ≤ 2 ∧
     ∃ k : ℤ, _optimal_servings recipe target = (k : ℚ) / 4) := by
  cases hrn : recipe.nutrition with
  | none =>
    have hval : _optimal_servings recipe target = 1 := by
      simp [_optimal_servings, hrn]
    refine ⟨⟨fun _ => hval, fun n hn _ => (by simp at hn),
      fun n hn _ => (by simp at hn)⟩, ?_, ?_, ⟨4, ?_⟩⟩ <;>
      rw [hval] <;> norm_num
  | some n =>
    by_cases hz : n.calories = 0
    · have hval : _optimal_servings recipe target = 1 := by
        simp [_optimal_servings, hrn, hz]
      refine ⟨⟨fun h => (by simp at h),
        fun m hm _ => hval,
        fun m hm hnz => ?_⟩, ?_, ?_, ⟨4, ?_⟩⟩
      · injection hm with hm
        subst hm
        exact absurd hz hnz
      all_goals rw [hval] <;> norm_num
    · have hval : _optimal_servings recipe target
          = max (1 / 2) (min 2
              ((pyRound (target.calories / n.calories * 4) : ℚ) / 4)) := by
        simp [_optimal_servings, hrn, hz]
      refine ⟨⟨fun h => (by simp at h),
        fun m hm hz2 => ?_, fun m hm _ => ?_⟩, ?_, ?_, ?_⟩
      · injection hm with hm
        subst hm
        exact absurd hz2 hz
      · injection hm with hm
        subst hm
        exact hval
      · rw [hval]
        exact le_max_left _ _
      · rw [hval]
        exact max_le (by norm_num) (min_le_left _ _)
      · rcases max_choice ((1 : ℚ) / 2) (min 2
            ((pyRound (target.calories / n.calories * 4) : ℚ) / 4)) with
          hmax | hmax
        · exact ⟨2, by rw [hval, hmax]; norm_num⟩
        · rcases min_choice ((2 : ℚ))
              ((pyRound (target.calories / n.calories * 4) : ℚ) / 4) with
            hmin | hmin
          · exact ⟨8, by rw [hval, hmax, hmin]; norm_num⟩
          · exact ⟨pyRound (target.calories / n.calories * 4),
              by rw [hval, hmax, hmin]⟩

/-- C8 witness: a 100-calorie recipe against an 800-calorie target clamps
to the 2.0 ceiling. -/
theorem optimal_servings_witness :
    _optimal_servings ⟨1, "Tiny", ["lunch"], some ⟨100, 5, 15, 2, 0, 0, 0⟩⟩
      ⟨800, 60, 100, 30, 0, 0, 0⟩ = 2 := by
  have h := ((optimal_servings_spec
    ⟨1, "Tiny", ["lunch"], some ⟨100, 5, 15, 2, 0, 0, 0⟩⟩
    ⟨800, 60, 100, 30, 0, 0, 0⟩).1.2.2 ⟨100, 5, 15, 2, 0, 0, 0⟩ rfl
    (by norm_num))
  rw [h]
  norm_num [pyRound]

/-- Each guarded deviation term of the scorer is non-negative. -/
theorem dev_term_nonneg (t w x : ℚ) (hw : 0 ≤ w) :
    0 ≤ (if t > 0 then w * |x - t| / t else 0) := by
  split_ifs with ht
  · exact div_nonneg (mul_nonneg hw (abs_nonneg _)) (le_of_lt ht)
  · exact le_refl 0

/-- The positive guard of the source and the zero-skip guard of the spec
agree on non-negative targets. -/
theorem dev_term_guard (t w x : ℚ) (ht : 0 ≤ t) :
    (if t > 0 then w * |x - t| / t else 0)
      = (if t = 0 then 0 else w * |x - t| / t) := by
  rcases eq_or_lt_of_le ht with h0 | hpos
  · rw [← h0]
    norm_num
  · rw [if_pos hpos, if_neg (ne_of_gt hpos)]

/-- C7: the score is 0 exactly for missing nutrition; with nutrition data
it equals the spec formula (for non-negative targets), is strictly
positive, at most 1, and exactly 1 when the scaled nutrition matches the
target in every non-zero dimension. -/
theorem recipe_score_spec (recipe : Recipe) (target : Nutrition)
    (servings : ℚ)
    (hc : 0 ≤ target.calories) (hp : 0 ≤ target.protein_g)
    (hb : 0 ≤ target.carbs_g) (hf : 0 ≤ target.fat_g) :
    (recipe.nutrition = none → _recipe_score recipe target servings = 0) ∧
    ∀ n, recipe.nutrition = some n →
      (_recipe_score recipe target servings
          = recipe_score_formula n target servings ∧
       0 < _recipe_score recipe target servings ∧
       _recipe_score recipe target servings ≤ 1 ∧
       (((n.scaled servings).calories = target.calories ∨ target.calories = 0) →
        ((n.scaled servings).protein_g = target.protein_g ∨ target.protein_g = 0) →
        ((n.scaled servings).carbs_g = target.carbs_g ∨ target.carbs_g = 0) →
        ((n.scaled servings).fat_g = target.fat_g ∨ target.fat_g = 0) →
        _recipe_score recipe target servings = 1)) := by
  constructor
  · intro hnone
    simp [_recipe_score, hnone]
  · intro n hn
    have hw1 : MACRO_SCORE_WEIGHTS "calories" = 1 := by
      simp [MACRO_SCORE_WEIGHTS]
    have hw2 : MACRO_SCORE_WEIGHTS "protein" = 3 / 2 := by
      simp [MACRO_SCORE_WEIGHTS]
    have hw3 : MACRO_SCORE_WEIGHTS "carbs" = 1 := by
      simp [MACRO_SCORE_WEIGHTS]
    have hw4 : MACRO_SCORE_WEIGHTS "fat" = 1 := by
      simp [MACRO_SCORE_WEIGHTS]
    have hval : _recipe_score recipe target servings
        = 1 / (1 +
          ((if target.calories > 0 then
              1 * |(n.scaled servings).calories - target.calories|
                / target.calories else 0)
          + (if target.protein_g > 0 then
              (3 / 2) * |(n.scaled servings).protein_g - target.protein_g|
                / target.protein_g else 0)
          + (if target.carbs_g > 0 then
              1 * |(n.scaled servings).carbs_g - target.carbs_g|
                / target.carbs_g else 0)
          + (if target.fat_g > 0 then
              1 * |(n.scaled servings).fat_g - target.fat_g|
                / target.fat_g else 0))) := by
      simp only [_recipe_score, hn, hw1, hw2, hw3, hw4]
    set d1 := (if target.calories > 0 then
        1 * |(n.scaled servings).calories - target.calories|
          / target.calories else 0) with hd1
    set d2 := (if target.protein_g > 0 then
        (3 / 2) * |(n.scaled servings).protein_g - target.protein_g|
          / target.protein_g else 0) with hd2
    set d3 := (if target.carbs_g > 0 then
        1 * |(n.scaled servings).carbs_g - target.carbs_g|
          / target.carbs_g else 0) with hd3
    set d4 := (if target.fat_g > 0 then
        1 * |(n.scaled servings).fat_g - target.fat_g|
          / target.fat_g else 0) with hd4
    have h1 : 0 ≤ d1 := by rw [hd1]; exact dev_term_nonneg _ _ _ (by norm_num)
    have h2 : 0 ≤ d2 := by rw [hd2]; exact dev_term_nonneg _ _ _ (by norm_num)
    have h3 : 0 ≤ d3 := by rw [hd3]; exact dev_term_nonneg _ _ _ (by norm_num)
    have h4 : 0 ≤ d4 := by rw [hd4]; exact dev_term_nonneg _ _ _ (by norm_num)
    refine ⟨?_, ?_, ?_, ?_⟩
    · rw [hval]
      simp only [recipe_score_formula]
      rw [hd1, hd2, hd3, hd4, dev_term_guard _ _ _ hc, dev_term_guard _ _ _ hp,
        dev_term_guard _ _ _ hb, dev_term_guard _ _ _ hf]
    · rw [hval]
      apply div_pos one_pos
      linarith
    · rw [hval]
      rw [div_le_one (by linarith)]
      linarith
    · intro d1h d2h d3h d4h
      have e1 : d1 = 0 := by
        rw [hd1]
        rcases d1h with he | he
        · split_ifs with ht
          · rw [he]
            simp
          · rfl
        · rw [if_neg (by rw [he]; exact lt_irrefl 0)]
      have e2 : d2 = 0 := by
        rw [hd2]
        rcases d2h with he | he
        · split_ifs with ht
          · rw [he]
            simp
          · rfl
        · rw [if_neg (by rw [he]; exact lt_irrefl 0)]
      have e3 : d3 = 0 := by
        rw [hd3]
        rcases d3h with he | he
        · split_ifs with ht
          · rw [he]
            simp
          · rfl
        · rw [if_neg (by rw [he]; exact lt_irrefl 0)]
      have e4 : d4 = 0 := by
        rw [hd4]
        rcases d4h with he | he
        · split_ifs with ht
          · rw [he]
            simp
          · rfl
        · rw [if_neg (by rw [he]; exact lt_irrefl 0)]
      rw [hval, e1, e2, e3, e4]
      norm_num

/-- C7 witness: a perfect match scores exactly 1. -/
theorem recipe_score_witness :
    _recipe_score ⟨99, "Perfect", ["lunch"], some ⟨400, 30, 50, 15, 0, 0, 0⟩⟩
      ⟨400, 30, 50, 15, 0, 0, 0⟩ 1 = 1 := by
  have h := (recipe_score_spec
    ⟨99, "Perfect", ["lunch"], some ⟨400, 30, 50, 15, 0, 0, 0⟩⟩
    ⟨400, 30, 50, 15, 0, 0, 0⟩ 1 (by norm_num) (by norm_num) (by norm_num)
    (by norm_num)).2 ⟨400, 30, 50, 15, 0, 0, 0⟩ rfl
  exact h.2.2.2 (Or.inl (by norm_num [Nutrition.scaled]))
    (Or.inl (by norm_num [Nutrition.scaled]))
    (Or.inl (by norm_num [Nutrition.scaled]))
    (Or.inl (by norm_num [Nutrition.scaled]))

/-- C2 (amended): membership in the recently-used set means "some entry
of some plan of this user with week_start_date ≥ before_date −
window_days references this id" — a lower bound only, so plans starting
on or after `before_date` also contribute. -/
theorem recently_used_ids_characterization (db : DB) (user_id : Nat)
    (before_date window_days : ℤ) (rid : Nat) :
    (rid ∈ _get_recently_used_recipe_ids db user_id before_date window_days ↔
      ∃ e ∈ db.meal_plan_entries, e.recipe_id = rid ∧
        ∃ p ∈ db.meal_plans, p.id = e.meal_plan_id ∧ p.user_id = user_id ∧
          before_date - window_days ≤ p.week_start_date) := by
  simp only [_get_recently_used_recipe_ids, List.mem_map, List.mem_filter,
    List.any_eq_true, Bool.and_eq_true, beq_iff_eq, decide_eq_true_eq]
  constructor
  · rintro ⟨e, ⟨he, p, hp, ⟨⟨hpe, hpu⟩, hpd⟩⟩, rfl⟩
    exact ⟨e, he, rfl, p, hp, hpe, hpu, hpd⟩
  · rintro ⟨e, he, rfl, p, hp, hpe, hpu, hpd⟩
    exact ⟨e, ⟨he, p, hp, ⟨hpe, hpu⟩, hpd⟩, rfl⟩

/-- Example database for the C2 counterexample: one plan of user 1 with
week_start_date 5, holding recipe 42. -/
def exC2DB : DB :=
  ⟨[⟨1, 1, 5⟩], [⟨1, 0, "lunch", 42, 1⟩], []⟩

/-- C2 counterexample: with `before_date = 0` and window 21, the plan's
week_start_date 5 lies outside the claimed half-open interval [−21, 0),
yet the code (which has no upper bound) still returns its recipe id 42. -/
theorem recently_used_interval_counterexample :
    42 ∈ _get_recently_used_recipe_ids exC2DB 1 0 21 ∧
    42 ∉ recently_used_spec_interval exC2DB 1 0 21 := by
  constructor <;> decide

/-- C10: with no nutrition data anywhere in the catalog, the daily
recommendation is empty and the weekly plan has no entries; both
generators are total functions, so no error can be raised. -/
theorem no_nutrition_empty_plan (rng : ℕ → ℕ) (rng7 : ℕ → ℕ → ℕ) (db : DB)
    (targets : MacroTargets) (recipes : List Recipe) (recently : List Nat)
    (user_id : Nat) (week_start : ℤ)
    (hnone : ∀ r ∈ recipes, r.nutrition = none)
    (hdb : ∀ r ∈ db.recipes, r.nutrition = none) :
    recommend_daily_meals rng targets recipes recently = [] ∧
    (generate_weekly_plan rng7 db user_id targets week_start).entries = [] := by
  have hrec : ∀ (l : List Recipe), (∀ r ∈ l, r.nutrition = none) →
      ∀ (rg : ℕ → ℕ) (excl : List Nat),
        recommend_daily_meals rg targets l excl = [] := by
    intro l hl rg excl
    have havail : l.filter (fun r => r.nutrition.isSome) = [] := by
      rw [List.filter_eq_nil]
      intro r hr
      simp [hl r hr]
    simp only [recommend_daily_meals, havail]
    rfl
  refine ⟨hrec recipes hnone rng recently, ?_⟩
  have hloop : ∀ (days : List ℕ) (wu : List Nat),
      genLoop rng7 targets db.recipes
        (_get_recently_used_recipe_ids db user_id week_start
          VARIETY_WINDOW_DAYS) days wu = [] := by
    intro days
    induction days with
    | nil => intro wu; rfl
    | cons d rest ih =>
      intro wu
      simp only [genLoop, hrec db.recipes hdb, List.map_nil,
        List.nil_append, List.append_nil]
      exact ih wu
  exact hloop [0, 1, 2, 3, 4, 5, 6] []

/-- Catalog entry without nutrition, for the C10 witness. -/
def exNoNutr : Recipe := ⟨7, "NoData", ["breakfast"], none⟩

/-- C10 witness: a one-recipe catalog with no nutrition yields an empty
day and an empty weekly plan. -/
theorem no_nutrition_witness :
    recommend_daily_meals (fun _ => 0) ⟨2200, 165, 220, 73, 1700, 2200⟩
      [exNoNutr] [] = [] ∧
    (generate_weekly_plan (fun _ _ => 0) ⟨[], [], [exNoNutr]⟩ 1
      ⟨2200, 165, 220, 73, 1700, 2200⟩ 0).entries = [] :=
  no_nutrition_empty_plan _ _ _ _ _ _ _ _ (by decide) (by decide)

/-- Weekly loop invariants: entry keys (day, meal type) are distinct, every
entry's day is one of the loop's days, and each day's recipe ids are
distinct. -/
theorem genLoop_nodup (rng7 : ℕ → ℕ → ℕ) (targets : MacroTargets)
    (recipes : List Recipe) (recently : List Nat) :
    ∀ (days : List ℕ) (wu : List Nat), days.Nodup →
      ((genLoop rng7 targets recipes recently days wu).map
          (fun e => (e.day_of_week, e.meal_type))).Nodup ∧
      (∀ e ∈ genLoop rng7 targets recipes recently days wu,
        e.day_of_week ∈ days) ∧
      ∀ d : ℕ, (((genLoop rng7 targets recipes recently days wu).filter
          (fun e => e.day_of_week == d)).map (fun e => e.recipe_id)).Nodup := by
  intro days
  induction days with
  | nil =>
    intro wu _
    refine ⟨by simp [genLoop], by simp [genLoop], fun d => by simp [genLoop]⟩
  | cons day rest ih =>
    intro wu hnd
    rw [List.nodup_cons] at hnd
    obtain ⟨hdayrest, hndrest⟩ := hnd
    obtain ⟨hfst, hids, -⟩ :=
      recommend_master (rng7 day) targets recipes (recently ++ wu)
    obtain ⟨ihp, ihm, ihd⟩ := ih (wu ++ (recommend_daily_meals (rng7 day)
      targets recipes (recently ++ wu)).map (fun t => t.2.1.id)) hndrest
    simp only [genLoop]
    refine ⟨?_, ?_, ?_⟩
    · rw [List.map_append, List.nodup_append]
      refine ⟨?_, ihp, ?_⟩
      · rw [List.map_map]
        have hcomp : ((fun e : MealPlanEntry => (e.day_of_week, e.meal_type)) ∘
            (fun t : String × Recipe × ℚ =>
              MealPlanEntry.mk 0 day t.1 t.2.1.id t.2.2))
            = (fun p : String => (day, p)) ∘ (fun t => t.1) := rfl
        rw [hcomp, ← List.map_map]
        apply List.Nodup.map ?_ hfst
        intro a b hab
        simpa using hab
      · intro p hp hp2
        rw [List.map_map] at hp
        obtain ⟨t, -, ht⟩ := List.mem_map.mp hp
        obtain ⟨e, he, hee⟩ := List.mem_map.mp hp2
        have hpday : p.1 = day := by
          rw [← ht]
          simp [Function.comp]
        have hpday2 : p.1 ∈ rest := by
          rw [← hee]
          exact ihm e he
        rw [hpday] at hpday2
        exact hdayrest hpday2
    · intro e he
      rcases List.mem_append.mp he with h | h
      · obtain ⟨t, -, ht⟩ := List.mem_map.mp h
        rw [← ht]
        exact List.mem_cons_self _ _
      · exact List.mem_cons_of_mem _ (ihm e h)
    · intro d
      rw [List.filter_append, List.map_append]
      by_cases hd : day = d
      · subst hd
        have hrest0 : (genLoop rng7 targets recipes recently rest
            (wu ++ (recommend_daily_meals (rng7 day) targets recipes
              (recently ++ wu)).map (fun t => t.2.1.id))).filter
            (fun e => e.day_of_week == day) = [] := by
          rw [List.filter_eq_nil_iff]
          intro e he
          have hmem : e.day_of_week ∈ rest := ihm e he
          simp only [beq_iff_eq]
          intro hcontra
          rw [hcontra] at hmem
          exact hdayrest hmem
        have hbatch : ((recommend_daily_meals (rng7 day) targets recipes
            (recently ++ wu)).map (fun t =>
              MealPlanEntry.mk 0 day t.1 t.2.1.id t.2.2)).filter
            (fun e => e.day_of_week == day)
            = (recommend_daily_meals (rng7 day) targets recipes
                (recently ++ wu)).map (fun t =>
                  MealPlanEntry.mk 0 day t.1 t.2.1.id t.2.2) := by
          rw [List.filter_eq_self]
          intro e he
          obtain ⟨t, -, ht⟩ := List.mem_map.mp he
          rw [← ht]
          simp
        rw [hrest0, hbatch]
        simp only [List.map_nil, List.append_nil]
        rw [List.map_map]
        have hcomp2 : ((fun e : MealPlanEntry => e.recipe_id) ∘
            (fun t : String × Recipe × ℚ =>
              MealPlanEntry.mk 0 day t.1 t.2.1.id t.2.2))
            = fun t : String × Recipe × ℚ => t.2.1.id := rfl
        rw [hcomp2]
        exact hids
      · have hbatch0 : ((recommend_daily_meals (rng7 day) targets recipes
            (recently ++ wu)).map (fun t =>
              MealPlanEntry.mk 0 day t.1 t.2.1.id t.2.2)).filter
            (fun e => e.day_of_week == d) = [] := by
          rw [List.filter_eq_nil_iff]
          intro e he
          obtain ⟨t, -, ht⟩ := List.mem_map.mp he
          simp only [beq_iff_eq]
          intro hcontra
          apply hd
          rw [← hcontra, ← ht]
        rw [hbatch0]
        simp only [List.map_nil, List.nil_append]
        exact ihd d

/-- C6: the daily output has at most one tuple per meal type and no two
tuples with the same recipe id; every weekly plan has at most one entry
per (day, meal type) pair and no same-day recipe repetition. -/
theorem daily_weekly_uniqueness (rng : ℕ → ℕ) (rng7 : ℕ → ℕ → ℕ) (db : DB)
    (targets : MacroTargets) (recipes : List Recipe) (recently : List Nat)
    (user_id : Nat) (week_start : ℤ) :
    ((recommend_daily_meals rng targets recipes recently).map
        (fun t => t.1)).Nodup ∧
    ((recommend_daily_meals rng targets recipes recently).map
        (fun t => t.2.1.id)).Nodup ∧
    ((generate_weekly_plan rng7 db user_id targets week_start).entries.map
        (fun e => (e.day_of_week, e.meal_type))).Nodup ∧
    ∀ d : ℕ,
      (((generate_weekly_plan rng7 db user_id targets
          week_start).entries.filter
          (fun e => e.day_of_week == d)).map (fun e => e.recipe_id)).Nodup := by
  obtain ⟨hfst, hids, -⟩ := recommend_master rng targets recipes recently
  obtain ⟨hp, -, hd⟩ := genLoop_nodup rng7 targets db.recipes
    (_get_recently_used_recipe_ids db user_id week_start VARIETY_WINDOW_DAYS)
    [0, 1, 2, 3, 4, 5, 6] [] (by decide)
  exact ⟨hfst, hids, hp, hd⟩

/-- C5: regeneration touches at most the single (plan, day, meal type)
entry — the plans and recipes tables are unchanged, every entry row keeps
its key fields, any row whose key differs is untouched — and a `none`
result leaves the database entirely unchanged. -/
theorem regenerate_meal_frame (rng : ℕ → ℕ) (db : DB)
    (plan_id day_of_week : Nat) (meal_type : String)
    (targets : MacroTargets) :
    ((regenerate_meal rng db plan_id day_of_week meal_type
        targets).1.meal_plans = db.meal_plans) ∧
    ((regenerate_meal rng db plan_id day_of_week meal_type
        targets).1.recipes = db.recipes) ∧
    ((regenerate_meal rng db plan_id day_of_week meal_type
        targets).1.meal_plan_entries.length
        = db.meal_plan_entries.length) ∧
    (∀ i : ℕ, ∀ e, db.meal_plan_entries.get? i = some e →
      ∃ e2, (regenerate_meal rng db plan_id day_of_week meal_type
          targets).1.meal_plan_entries.get? i = some e2 ∧
        e2.meal_plan_id = e.meal_plan_id ∧
        e2.day_of_week = e.day_of_week ∧
        e2.meal_type = e.meal_type ∧
        (¬(e.meal_plan_id = plan_id ∧ e.day_of_week = day_of_week ∧
            e.meal_type = meal_type) → e2 = e)) ∧
    ((regenerate_meal rng db plan_id day_of_week meal_type targets).2 = none →
      (regenerate_meal rng db plan_id day_of_week meal_type targets).1 = db) := by
  cases hplan : db.meal_plans.find? (fun p => p.id == plan_id) with
  | none =>
    have hres : regenerate_meal rng db plan_id day_of_week meal_type targets
        = (db, none) := by
      simp only [regenerate_meal, hplan]
    rw [hres]
    exact ⟨rfl, rfl, rfl,
      fun i e hi => ⟨e, hi, rfl, rfl, rfl, fun _ => rfl⟩, fun _ => rfl⟩
  | some prow =>
    cases hfind : (recommend_daily_meals rng targets db.recipes
        (((db.meal_plan_entries.filter
            (fun e => e.meal_plan_id == plan_id)).map (fun e => e.recipe_id))
          ++ _get_recently_used_recipe_ids db prow.user_id
            prow.week_start_date VARIETY_WINDOW_DAYS)).find?
        (fun t => t.1 == meal_type) with
    | none =>
      have hres : regenerate_meal rng db plan_id day_of_week meal_type targets
          = (db, none) := by
        simp only [regenerate_meal, hplan, hfind]
      rw [hres]
      exact ⟨rfl, rfl, rfl,
        fun i e hi => ⟨e, hi, rfl, rfl, rfl, fun _ => rfl⟩, fun _ => rfl⟩
    | some t =>
      have hres : regenerate_meal rng db plan_id day_of_week meal_type targets
          = ({ db with meal_plan_entries := db.meal_plan_entries.map (fun e =>
                if e.meal_plan_id == plan_id && e.day_of_week == day_of_week
                    && e.meal_type == meal_type then
                  { e with recipe_id := t.2.1.id, servings := t.2.2 }
                else e) },
             some ⟨plan_id, day_of_week, meal_type, t.2.1.id, t.2.2⟩) := by
        simp only [regenerate_meal, hplan, hfind]
      refine ⟨by rw [hres], by rw [hres], ?_, ?_, ?_⟩
      · rw [hres]
        exact List.length_map _ _
      · intro i e hi
        rw [hres]
        have hget : (db.meal_plan_entries.map (fun e =>
            if e.meal_plan_id == plan_id && e.day_of_week == day_of_week
                && e.meal_type == meal_type then
              { e with recipe_id := t.2.1.id, servings := t.2.2 }
            else e)).get? i
            = some (if e.meal_plan_id == plan_id
                && e.day_of_week == day_of_week
                && e.meal_type == meal_type then
              { e with recipe_id := t.2.1.id, servings := t.2.2 }
            else e) := by
          rw [List.get?_map, hi, Option.map_some']
        by_cases hb : (e.meal_plan_id == plan_id && e.day_of_week == day_of_week
            && e.meal_type == meal_type) = true
        · rw [hb] at hget
          refine ⟨{ e with recipe_id := t.2.1.id, servings := t.2.2 },
            by rw [hget]; rfl, rfl, rfl, rfl, ?_⟩
          intro hk
          simp only [Bool.and_eq_true, beq_iff_eq] at hb
          exact absurd ⟨hb.1.1, hb.1.2, hb.2⟩ hk
        · rw [Bool.not_eq_true] at hb
          rw [hb] at hget
          exact ⟨e, by rw [hget]; rfl, rfl, rfl, rfl, fun _ => rfl⟩
      · intro hnone
        rw [hres] at hnone
        cases hnone

/-- C5 witness: a failed regeneration (empty catalog) leaves the database
unchanged, and the surviving entry keeps its key fields. -/
theorem regenerate_frame_witness :
    (regenerate_meal (fun _ => 0) exC2DB 1 0 "lunch" ⟨0, 0, 0, 0, 0, 0⟩).1
        = exC2DB ∧
    ∃ e2, (regenerate_meal (fun _ => 0) exC2DB 1 0 "lunch"
        ⟨0, 0, 0, 0, 0, 0⟩).1.meal_plan_entries.get? 0 = some e2 ∧
      e2.meal_plan_id = 1 ∧ e2.day_of_week = 0 ∧ e2.meal_type = "lunch" := by
  have h := regenerate_meal_frame (fun _ => 0) exC2DB 1 0 "lunch"
    ⟨0, 0, 0, 0, 0, 0⟩
  refine ⟨h.2.2.2.2 (by rfl), ?_⟩
  obtain ⟨e2, hget, h1, h2, h3, -⟩ :=
    h.2.2.2.1 0 ⟨1, 0, "lunch", 42, 1⟩ (by rfl)
  exact ⟨e2, hget, h1, h2, h3⟩

/-! ## Concrete scenario: catalog with only breakfast/lunch recipes -/

/-- Catalog recipe for the exhaustion scenario (breakfast/lunch only). -/
def exRecipeA : Recipe := ⟨1, "A", ["breakfast", "lunch"], some ⟨4, 0, 0, 0, 0, 0, 0⟩⟩

/-- Catalog recipe for the exhaustion scenario (breakfast/lunch only). -/
def exRecipeB : Recipe := ⟨2, "B", ["breakfast", "lunch"], some ⟨4, 0, 0, 0, 0, 0, 0⟩⟩

/-- Catalog recipe for the exhaustion scenario (breakfast/lunch only). -/
def exRecipeC : Recipe := ⟨3, "C", ["breakfast", "lunch"], some ⟨4, 0, 0, 0, 0, 0, 0⟩⟩

/-- All-zero macro targets (keeps the scenario arithmetic trivial). -/
def exZeroTargets : MacroTargets := ⟨0, 0, 0, 0, 0, 0⟩

theorem exC3_slot1 :
    selectSlot 0 exZeroTargets [exRecipeA, exRecipeB, exRecipeC] []
      ⟨[], [], Nutrition.zero⟩ "breakfast"
      = ⟨[("breakfast", exRecipeA, 1 / 2)], [1], ⟨2, 0, 0, 0, 0, 0, 0⟩⟩ := by
  have hps : pickScored 0
      (slotTarget exZeroTargets ⟨[], [], Nutrition.zero⟩ "breakfast")
      (tierCandidates [exRecipeA, exRecipeB, exRecipeC] []
        (⟨[], [], Nutrition.zero⟩ : DayState).used_today "breakfast")
      = some (exRecipeA, 1 / 2) := by
    have h1 : slotTarget exZeroTargets ⟨[], [], Nutrition.zero⟩ "breakfast"
        = ⟨0, 0, 0, 0, 0, 0, 0⟩ := by
      norm_num [slotTarget, _meal_target, MEAL_CALORIE_SPLITS, exZeroTargets]
      try (intro h; exact absurd h (by decide))
    have h2 : tierCandidates [exRecipeA, exRecipeB, exRecipeC] []
        (⟨[], [], Nutrition.zero⟩ : DayState).used_today "breakfast"
        = [exRecipeA, exRecipeB, exRecipeC] := by decide
    rw [h1, h2]
    norm_num [pickScored, sortByScoreDesc, insertDesc, _optimal_servings,
      _recipe_score, pyRound, MACRO_SCORE_WEIGHTS, exRecipeA, exRecipeB,
      exRecipeC, Nutrition.scaled]
  rw [selectSlot_pick_some hps]
  norm_num [Nutrition.add, Nutrition.scaled, Nutrition.zero, exRecipeA]

theorem exC3_slot2 :
    selectSlot 0 exZeroTargets [exRecipeA, exRecipeB, exRecipeC] []
      ⟨[("breakfast", exRecipeA, 1 / 2)], [1], ⟨2, 0, 0, 0, 0, 0, 0⟩⟩ "lunch"
      = ⟨[("breakfast", exRecipeA, 1 / 2), ("lunch", exRecipeB, 1 / 2)],
         [2, 1], ⟨4, 0, 0, 0, 0, 0, 0⟩⟩ := by
  have hps : pickScored 0
      (slotTarget exZeroTargets
        ⟨[("breakfast", exRecipeA, 1 / 2)], [1], ⟨2, 0, 0, 0, 0, 0, 0⟩⟩ "lunch")
      (tierCandidates [exRecipeA, exRecipeB, exRecipeC] []
        (⟨[("breakfast", exRecipeA, 1 / 2)], [1],
          ⟨2, 0, 0, 0, 0, 0, 0⟩⟩ : DayState).used_today "lunch")
      = some (exRecipeB, 1 / 2) := by
    have h1 : slotTarget exZeroTargets
        ⟨[("breakfast", exRecipeA, 1 / 2)], [1], ⟨2, 0, 0, 0, 0, 0, 0⟩⟩ "lunch"
        = ⟨0, 0, 0, 0, 0, 0, 0⟩ := by
      norm_num [slotTarget, _meal_target, MEAL_CALORIE_SPLITS, exZeroTargets]
      try (intro h; exact absurd h (by decide))
    have h2 : tierCandidates [exRecipeA, exRecipeB, exRecipeC] []
        (⟨[("breakfast", exRecipeA, 1 / 2)], [1],
          ⟨2, 0, 0, 0, 0, 0, 0⟩⟩ : DayState).used_today "lunch"
        = [exRecipeB, exRecipeC] := by decide
    rw [h1, h2]
    norm_num [pickScored, sortByScoreDesc, insertDesc, _optimal_servings,
      _recipe_score, pyRound, MACRO_SCORE_WEIGHTS, exRecipeB, exRecipeC,
      Nutrition.scaled]
  rw [selectSlot_pick_some hps]
  norm_num [Nutrition.add, Nutrition.scaled, Nutrition.zero, exRecipeB]

theorem exC3_slot3 :
    selectSlot 0 exZeroTargets [exRecipeA, exRecipeB, exRecipeC] []
      ⟨[("breakfast", exRecipeA, 1 / 2), ("lunch", exRecipeB, 1 / 2)],
       [2, 1], ⟨4, 0, 0, 0, 0, 0, 0⟩⟩ "dinner"
      = ⟨[("breakfast", exRecipeA, 1 / 2), ("lunch", exRecipeB, 1 / 2),
          ("dinner", exRecipeC, 1 / 2)],
         [3, 2, 1], ⟨6, 0, 0, 0, 0, 0, 0⟩⟩ := by
  have hps : pickScored 0
      (slotTarget exZeroTargets
        ⟨[("breakfast", exRecipeA, 1 / 2), ("lunch", exRecipeB, 1 / 2)],
         [2, 1], ⟨4, 0, 0, 0, 0, 0, 0⟩⟩ "dinner")
      (tierCandidates [exRecipeA, exRecipeB, exRecipeC] []
        (⟨[("breakfast", exRecipeA, 1 / 2), ("lunch", exRecipeB, 1 / 2)],
          [2, 1], ⟨4, 0, 0, 0, 0, 0, 0⟩⟩ : DayState).used_today "dinner")
      = some (exRecipeC, 1 / 2) := by
    have h1 : slotTarget exZeroTargets
        ⟨[("breakfast", exRecipeA, 1 / 2), ("lunch", exRecipeB, 1 / 2)],
         [2, 1], ⟨4, 0, 0, 0, 0, 0, 0⟩⟩ "dinner"
        = ⟨0, 0, 0, 0, 0, 0, 0⟩ := by
      norm_num [slotTarget, _meal_target, MEAL_CALORIE_SPLITS, exZeroTargets]
      try (intro h; exact absurd h (by decide))
    have h2 : tierCandidates [exRecipeA, exRecipeB, exRecipeC] []
        (⟨[("breakfast", exRecipeA, 1 / 2), ("lunch", exRecipeB, 1 / 2)],
          [2, 1], ⟨4, 0, 0, 0, 0, 0, 0⟩⟩ : DayState).used_today "dinner"
        = [exRecipeC] := by decide
    rw [h1, h2]
    norm_num [pickScored, sortByScoreDesc, insertDesc, _optimal_servings,
      _recipe_score, pyRound, MACRO_SCORE_WEIGHTS, exRecipeC,
      Nutrition.scaled]
  rw [selectSlot_pick_some hps]
  norm_num [Nutrition.add, Nutrition.scaled, Nutrition.zero, exRecipeC]

/-- The exhaustion-scenario day: all three slots fill, dinner included,
via the last-resort tier. -/
theorem exC3_daily :
    recommend_daily_meals (fun _ => 0) exZeroTargets
      [exRecipeA, exRecipeB, exRecipeC] []
      = [("breakfast", exRecipeA, 1 / 2), ("lunch", exRecipeB, 1 / 2),
         ("dinner", exRecipeC, 1 / 2)] := by
  have havail : ([exRecipeA, exRecipeB, exRecipeC].filter
      (fun r => r.nutrition.isSome)) = [exRecipeA, exRecipeB, exRecipeC] := by
    decide
  simp only [recommend_daily_meals, havail, exC3_slot1, exC3_slot2, exC3_slot3]

/-- Database for the exhaustion scenario: empty plan history, three
breakfast/lunch-only recipes. -/
def exC3DB : DB := ⟨[], [], [exRecipeA, exRecipeB, exRecipeC]⟩

/-- C3 counterexample: the catalog has no dinner-tagged recipe, yet day 0
of the generated plan contains a dinner entry — the last-resort tier
fills dinner with a non-dinner recipe, so the claimed "dinner entry is
absent" fails. -/
theorem exhaustion_dinner_present_counterexample :
    (∀ r ∈ exC3DB.recipes, r.meal_types.contains "dinner" = false) ∧
    (⟨0, 0, "dinner", 3, 1 / 2⟩ : MealPlanEntry) ∈
      (generate_weekly_plan (fun _ _ => 0) exC3DB 1 exZeroTargets 0).entries := by
  refine ⟨by decide, ?_⟩
  have hrecently : _get_recently_used_recipe_ids exC3DB 1 0
      VARIETY_WINDOW_DAYS = [] := rfl
  have hrecipes : exC3DB.recipes = [exRecipeA, exRecipeB, exRecipeC] := rfl
  simp only [generate_weekly_plan, hrecently, hrecipes, genLoop,
    List.nil_append, exC3_daily]
  apply List.mem_append_left
  refine List.mem_map.mpr ⟨("dinner", exRecipeC, 1 / 2), ?_, rfl⟩
  simp

/-- C3 (amended): with no dinner-tagged recipe the dinner slot only falls
back to the last-resort pool, so a day's dinner entry is absent exactly
when the catalog is nearly exhausted: with at most two recipes no daily
run produces a dinner tuple, and no exception is possible (the selector
is a total function).  With three or more available recipes the dinner
slot is instead filled by a non-dinner recipe. -/
theorem exhaustion_no_dinner_when_small (rng : ℕ → ℕ)
    (targets : MacroTargets) (recipes : List Recipe) (recently : List Nat)
    (hnod : ∀ r ∈ recipes, r.meal_types.contains "dinner" = false)
    (hsmall : recipes.length ≤ 2) :
    (recommend_daily_meals rng targets recipes recently).filter
      (fun t => t.1 == "dinner") = [] := by
  rw [List.filter_eq_nil_iff]
  intro t ht
  obtain ⟨-, -, hmaster⟩ := recommend_master rng targets recipes recently
  obtain ⟨used, -, -, hdin⟩ := hmaster t ht
  simp only [beq_iff_eq]
  intro hcontra
  obtain ⟨hne, hlen⟩ := hdin hcontra
  have hle : (tier3Filter (recipes.filter (fun r => r.nutrition.isSome))
      ([] : List Nat)).length ≤ recipes.length :=
    le_trans (List.length_filter_le _ _) (List.length_filter_le _ _)
  have hzero : (tier3Filter (recipes.filter (fun r => r.nutrition.isSome))
      used).length = 0 := by omega
  exact hne (List.length_eq_zero.mp hzero)

/-- C3 amended-claim witness: a two-recipe breakfast/lunch catalog yields
no dinner tuple. -/
theorem exhaustion_no_dinner_witness :
    (recommend_daily_meals (fun _ => 0) exZeroTargets
      [exRecipeA, exRecipeB] []).filter (fun t => t.1 == "dinner") = [] :=
  exhaustion_no_dinner_when_small _ _ _ _ (by decide) (by decide)

/-! ## Concrete scenario: regeneration with two eligible lunch candidates -/

/-- Breakfast recipe of the regeneration scenario. -/
def exRecipeB0 : Recipe := ⟨10, "B0", ["breakfast"], some ⟨250, 0, 0, 0, 0, 0, 0⟩⟩

/-- Lunch candidate already present in the stored plan. -/
def exRecipeL1 : Recipe := ⟨1, "L1", ["lunch"], some ⟨350, 0, 0, 0, 0, 0, 0⟩⟩

/-- The other lunch candidate. -/
def exRecipeL2 : Recipe := ⟨2, "L2", ["lunch"], some ⟨300, 0, 0, 0, 0, 0, 0⟩⟩

/-- Database of the regeneration scenario: one plan (id 1, user 1, week 0)
whose single entry is lunch on day 2 with recipe 1. -/
def exC4DB : DB :=
  ⟨[⟨1, 1, 0⟩], [⟨1, 2, "lunch", 1, 1⟩], [exRecipeB0, exRecipeL1, exRecipeL2]⟩

/-- 1000-calorie daily target of the regeneration scenario. -/
def exTargets1000 : MacroTargets := ⟨1000, 0, 0, 0, 0, 0⟩

theorem exC4_slot1 :
    selectSlot 0 exTargets1000 [exRecipeB0, exRecipeL1, exRecipeL2] [1, 1]
      ⟨[], [], Nutrition.zero⟩ "breakfast"
      = ⟨[("breakfast", exRecipeB0, 1)], [10], ⟨250, 0, 0, 0, 0, 0, 0⟩⟩ := by
  have hps : pickScored 0
      (slotTarget exTargets1000 ⟨[], [], Nutrition.zero⟩ "breakfast")
      (tierCandidates [exRecipeB0, exRecipeL1, exRecipeL2] [1, 1]
        (⟨[], [], Nutrition.zero⟩ : DayState).used_today "breakfast")
      = some (exRecipeB0, 1) := by
    have h1 : slotTarget exTargets1000 ⟨[], [], Nutrition.zero⟩ "breakfast"
        = ⟨250, 0, 0, 0, 0, 0, 0⟩ := by
      norm_num [slotTarget, _meal_target, MEAL_CALORIE_SPLITS, exTargets1000]
      try (intro h; exact absurd h (by decide))
    have h2 : tierCandidates [exRecipeB0, exRecipeL1, exRecipeL2] [1, 1]
        (⟨[], [], Nutrition.zero⟩ : DayState).used_today "breakfast"
        = [exRecipeB0] := by decide
    rw [h1, h2]
    norm_num [pickScored, sortByScoreDesc, insertDesc, _optimal_servings,
      _recipe_score, pyRound, MACRO_SCORE_WEIGHTS, exRecipeB0,
      Nutrition.scaled]
  rw [selectSlot_pick_some hps]
  norm_num [Nutrition.add, Nutrition.scaled, Nutrition.zero, exRecipeB0]

theorem exC4_slot2 :
    selectSlot 0 exTargets1000 [exRecipeB0, exRecipeL1, exRecipeL2] [1, 1]
      ⟨[("breakfast", exRecipeB0, 1)], [10], ⟨250, 0, 0, 0, 0, 0, 0⟩⟩ "lunch"
      = ⟨[("breakfast", exRecipeB0, 1), ("lunch", exRecipeL1, 1)],
         [1, 10], ⟨600, 0, 0, 0, 0, 0, 0⟩⟩ := by
  have hps : pickScored 0
      (slotTarget exTargets1000
        ⟨[("breakfast", exRecipeB0, 1)], [10],
          ⟨250, 0, 0, 0, 0, 0, 0⟩⟩ "lunch")
      (tierCandidates [exRecipeB0, exRecipeL1, exRecipeL2] [1, 1]
        (⟨[("breakfast", exRecipeB0, 1)], [10],
          ⟨250, 0, 0, 0, 0, 0, 0⟩⟩ : DayState).used_today "lunch")
      = some (exRecipeL1, 1) := by
    have h1 : slotTarget exTargets1000
        ⟨[("breakfast", exRecipeB0, 1)], [10],
          ⟨250, 0, 0, 0, 0, 0, 0⟩⟩ "lunch"
        = ⟨350, 0, 0, 0, 0, 0, 0⟩ := by
      norm_num [slotTarget, _meal_target, MEAL_CALORIE_SPLITS, exTargets1000,
        (by decide : ("lunch" : String) ≠ "breakfast"),
        (by decide : ("lunch" : String) ≠ "dinner")]
      try (intro h; exact absurd h (by decide))
    have h2 : tierCandidates [exRecipeB0, exRecipeL1, exRecipeL2] [1, 1]
        (⟨[("breakfast", exRecipeB0, 1)], [10],
          ⟨250, 0, 0, 0, 0, 0, 0⟩⟩ : DayState).used_today "lunch"
        = [exRecipeL1, exRecipeL2] := by decide
    have hfr : Int.fract ((14 : ℚ) / 3) = 2 / 3 := by norm_num [Int.fract]
    rw [h1, h2]
    norm_num [pickScored, sortByScoreDesc, insertDesc, _optimal_servings,
      _recipe_score, pyRound, MACRO_SCORE_WEIGHTS, exRecipeL1, exRecipeL2,
      Nutrition.scaled, hfr]
  rw [selectSlot_pick_some hps]
  norm_num [Nutrition.add, Nutrition.scaled, Nutrition.zero, exRecipeL1]

theorem exC4_slot3 :
    selectSlot 0 exTargets1000 [exRecipeB0, exRecipeL1, exRecipeL2] [1, 1]
      ⟨[("breakfast", exRecipeB0, 1), ("lunch", exRecipeL1, 1)],
       [1, 10], ⟨600, 0, 0, 0, 0, 0, 0⟩⟩ "dinner"
      = ⟨[("breakfast", exRecipeB0, 1), ("lunch", exRecipeL1, 1),
          ("dinner", exRecipeL2, 5 / 4)],
         [2, 1, 10], ⟨975, 0, 0, 0, 0, 0, 0⟩⟩ := by
  have hps : pickScored 0
      (slotTarget exTargets1000
        ⟨[("breakfast", exRecipeB0, 1), ("lunch", exRecipeL1, 1)],
         [1, 10], ⟨600, 0, 0, 0, 0, 0, 0⟩⟩ "dinner")
      (tierCandidates [exRecipeB0, exRecipeL1, exRecipeL2] [1, 1]
        (⟨[("breakfast", exRecipeB0, 1), ("lunch", exRecipeL1, 1)],
          [1, 10], ⟨600, 0, 0, 0, 0, 0, 0⟩⟩ : DayState).used_today "dinner")
      = some (exRecipeL2, 5 / 4) := by
    have h1 : slotTarget exTargets1000
        ⟨[("breakfast", exRecipeB0, 1), ("lunch", exRecipeL1, 1)],
         [1, 10], ⟨600, 0, 0, 0, 0, 0, 0⟩⟩ "dinner"
        = ⟨400, 0, 0, 0, 0, 0, 0⟩ := by
      norm_num [slotTarget, _meal_target, MEAL_CALORIE_SPLITS, exTargets1000]
      try (intro h; exact absurd h (by decide))
      try norm_num
    have h2 : tierCandidates [exRecipeB0, exRecipeL1, exRecipeL2] [1, 1]
        (⟨[("breakfast", exRecipeB0, 1), ("lunch", exRecipeL1, 1)],
          [1, 10], ⟨600, 0, 0, 0, 0, 0, 0⟩⟩ : DayState).used_today "dinner"
        = [exRecipeL2] := by decide
    have hfr : Int.fract ((16 : ℚ) / 3) = 1 / 3 := by norm_num [Int.fract]
    rw [h1, h2]
    norm_num [pickScored, sortByScoreDesc, insertDesc, _optimal_servings,
      _recipe_score, pyRound, MACRO_SCORE_WEIGHTS, exRecipeL2,
      Nutrition.scaled, hfr]
  rw [selectSlot_pick_some hps]
  norm_num [Nutrition.add, Nutrition.scaled, Nutrition.zero, exRecipeL2]

/-- The regeneration scenario's daily run: lunch relaxes to tier 2 and
re-selects the plan's own recipe L1. -/
theorem exC4_daily :
    recommend_daily_meals (fun _ => 0) exTargets1000
      [exRecipeB0, exRecipeL1, exRecipeL2] [1, 1]
      = [("breakfast", exRecipeB0, 1), ("lunch", exRecipeL1, 1),
         ("dinner", exRecipeL2, 5 / 4)] := by
  have havail : ([exRecipeB0, exRecipeL1, exRecipeL2].filter
      (fun r => r.nutrition.isSome))
      = [exRecipeB0, exRecipeL1, exRecipeL2] := by decide
  simp only [recommend_daily_meals, havail, exC4_slot1, exC4_slot2, exC4_slot3]

/-- C4 counterexample: the catalog holds exactly 2 eligible lunch
candidates, one of which (recipe 1) is already in the plan; regenerating
(day 2, lunch) relaxes to tier 2 and returns recipe 1 — a recipe id
already present in the plan. -/
theorem regen_duplicate_counterexample :
    ((exC4DB.recipes.filter (fun r =>
        r.meal_types.contains "lunch" && r.nutrition.isSome)).length = 2) ∧
    ((regenerate_meal (fun _ => 0) exC4DB 1 2 "lunch" exTargets1000).2.map
        (fun e => e.recipe_id)) = some 1 ∧
    1 ∈ (exC4DB.meal_plan_entries.filter
        (fun e => e.meal_plan_id == 1)).map (fun e => e.recipe_id) := by
  refine ⟨by decide, ?_, by decide⟩
  have hplan : exC4DB.meal_plans.find? (fun p => p.id == 1)
      = some ⟨1, 1, 0⟩ := rfl
  have hexcl : ((exC4DB.meal_plan_entries.filter
      (fun e => e.meal_plan_id == 1)).map (fun e => e.recipe_id))
      ++ _get_recently_used_recipe_ids exC4DB 1 0 VARIETY_WINDOW_DAYS
      = [1, 1] := by decide
  have hrecipes : exC4DB.recipes = [exRecipeB0, exRecipeL1, exRecipeL2] := rfl
  have hfind : ([("breakfast", exRecipeB0, (1 : ℚ)),
      ("lunch", exRecipeL1, 1), ("dinner", exRecipeL2, 5 / 4)].find?
      (fun t => t.1 == "lunch")) = some ("lunch", exRecipeL1, 1) := by
    rw [List.find?_cons_of_neg _ (by decide), List.find?_cons_of_pos _ (by decide)]
  simp only [regenerate_meal, hplan, hrecipes, hexcl, exC4_daily, hfind]
  decide

/-- C4 (amended): the no-reuse guarantee needs the tier-1 pool (which
excludes the plan's recipes and the variety window) to survive
relaxation: with distinct ids among the eligible recipes and at least 5
candidates of the requested meal type outside the exclusion set, a
successful regeneration always returns a recipe id not present in the
plan.  (2 candidates are not enough: see the counterexample.) -/
theorem regen_fresh_recipe (rng : ℕ → ℕ) (db : DB)
    (plan_id day_of_week : Nat) (mt : String) (targets : MacroTargets)
    (prow : PlanRow) (e : MealPlanEntry)
    (hnd : ((db.recipes.filter (fun r => r.nutrition.isSome)).map
      Recipe.id).Nodup)
    (hplan : db.meal_plans.find? (fun p => p.id == plan_id) = some prow)
    (hbig : 5 ≤ (tier1Filter (db.recipes.filter (fun r => r.nutrition.isSome))
        (((db.meal_plan_entries.filter (fun x => x.meal_plan_id == plan_id)).map
            (fun x => x.recipe_id))
          ++ _get_recently_used_recipe_ids db prow.user_id
            prow.week_start_date VARIETY_WINDOW_DAYS) [] mt).length)
    (hres : (regenerate_meal rng db plan_id day_of_week mt targets).2
      = some e) :
    e.recipe_id ∉ (db.meal_plan_entries.filter
      (fun x => x.meal_plan_id == plan_id)).map (fun x => x.recipe_id) := by
  simp only [regenerate_meal, hplan] at hres
  cases hfind : (recommend_daily_meals rng targets db.recipes
      (((db.meal_plan_entries.filter (fun x => x.meal_plan_id == plan_id)).map
          (fun x => x.recipe_id))
        ++ _get_recently_used_recipe_ids db prow.user_id
          prow.week_start_date VARIETY_WINDOW_DAYS)).find?
      (fun t => t.1 == mt) with
  | none =>
    rw [hfind] at hres
    cases hres
  | some t =>
    rw [hfind] at hres
    have he : e.recipe_id = t.2.1.id := by
      injection hres with h
      rw [← h]
    have htmem := List.mem_of_find?_eq_some hfind
    have htp : t.1 = mt := by
      have := List.find?_some hfind
      rwa [beq_iff_eq] at this
    obtain ⟨-, -, hmaster⟩ := recommend_master rng targets db.recipes
      (((db.meal_plan_entries.filter (fun x => x.meal_plan_id == plan_id)).map
          (fun x => x.recipe_id))
        ++ _get_recently_used_recipe_ids db prow.user_id
          prow.week_start_date VARIETY_WINDOW_DAYS)
    obtain ⟨used, hulen, hmem, -⟩ := hmaster t htmem
    rw [htp] at hmem
    have hge := tier1Filter_length_ge hnd
      (((db.meal_plan_entries.filter (fun x => x.meal_plan_id == plan_id)).map
          (fun x => x.recipe_id))
        ++ _get_recently_used_recipe_ids db prow.user_id
          prow.week_start_date VARIETY_WINDOW_DAYS) used mt
    have h3 : 3 ≤ (tier1Filter
        (db.recipes.filter (fun r => r.nutrition.isSome))
        (((db.meal_plan_entries.filter (fun x => x.meal_plan_id == plan_id)).map
            (fun x => x.recipe_id))
          ++ _get_recently_used_recipe_ids db prow.user_id
            prow.week_start_date VARIETY_WINDOW_DAYS) used mt).length := by
      omega
    rw [tierCandidates_of_big_tier1 h3] at hmem
    obtain ⟨-, -, hexclfalse, -⟩ := tier1Filter_mem hmem
    rw [he]
    intro hin
    exact contains_false_not_mem hexclfalse (List.mem_append_left _ hin)

/-- Breakfast recipe of the 5-candidate witness scenario. -/
def exRecipeWB : Recipe := ⟨10, "WB", ["breakfast"], some ⟨4, 0, 0, 0, 0, 0, 0⟩⟩

/-- Lunch candidates of the 5-candidate witness scenario. -/
def exRecipeW1 : Recipe := ⟨11, "W1", ["lunch"], some ⟨4, 0, 0, 0, 0, 0, 0⟩⟩

def exRecipeW2 : Recipe := ⟨12, "W2", ["lunch"], some ⟨4, 0, 0, 0, 0, 0, 0⟩⟩

def exRecipeW3 : Recipe := ⟨13, "W3", ["lunch"], some ⟨4, 0, 0, 0, 0, 0, 0⟩⟩

def exRecipeW4 : Recipe := ⟨14, "W4", ["lunch"], some ⟨4, 0, 0, 0, 0, 0, 0⟩⟩

def exRecipeW5 : Recipe := ⟨15, "W5", ["lunch"], some ⟨4, 0, 0, 0, 0, 0, 0⟩⟩

/-- Database of the 5-candidate witness scenario: the plan's lunch entry
references recipe 101, which is not in the catalog. -/
def exC4WDB : DB :=
  ⟨[⟨1, 1, 0⟩], [⟨1, 2, "lunch", 101, 1⟩],
   [exRecipeWB, exRecipeW1, exRecipeW2, exRecipeW3, exRecipeW4, exRecipeW5]⟩

theorem exC4W_slot1 :
    selectSlot 0 exZeroTargets
      [exRecipeWB, exRecipeW1, exRecipeW2, exRecipeW3, exRecipeW4, exRecipeW5]
      [101, 101] ⟨[], [], Nutrition.zero⟩ "breakfast"
      = ⟨[("breakfast", exRecipeWB, 1 / 2)], [10], ⟨2, 0, 0, 0, 0, 0, 0⟩⟩ := by
  have hps : pickScored 0
      (slotTarget exZeroTargets ⟨[], [], Nutrition.zero⟩ "breakfast")
      (tierCandidates
        [exRecipeWB, exRecipeW1, exRecipeW2, exRecipeW3, exRecipeW4, exRecipeW5]
        [101, 101] (⟨[], [], Nutrition.zero⟩ : DayState).used_today "breakfast")
      = some (exRecipeWB, 1 / 2) := by
    have h1 : slotTarget exZeroTargets ⟨[], [], Nutrition.zero⟩ "breakfast"
        = ⟨0, 0, 0, 0, 0, 0, 0⟩ := by
      norm_num [slotTarget, _meal_target, MEAL_CALORIE_SPLITS, exZeroTargets]
      try (intro h; exact absurd h (by decide))
    have h2 : tierCandidates
        [exRecipeWB, exRecipeW1, exRecipeW2, exRecipeW3, exRecipeW4, exRecipeW5]
        [101, 101] (⟨[], [], Nutrition.zero⟩ : DayState).used_today "breakfast"
        = [exRecipeWB] := by decide
    rw [h1, h2]
    norm_num [pickScored, sortByScoreDesc, insertDesc, _optimal_servings,
      _recipe_score, pyRound, MACRO_SCORE_WEIGHTS, exRecipeWB,
      Nutrition.scaled]
  rw [selectSlot_pick_some hps]
  norm_num [Nutrition.add, Nutrition.scaled, Nutrition.zero, exRecipeWB]

theorem exC4W_slot2 :
    selectSlot 0 exZeroTargets
      [exRecipeWB, exRecipeW1, exRecipeW2, exRecipeW3, exRecipeW4, exRecipeW5]
      [101, 101]
      ⟨[("breakfast", exRecipeWB, 1 / 2)], [10], ⟨2, 0, 0, 0, 0, 0, 0⟩⟩ "lunch"
      = ⟨[("breakfast", exRecipeWB, 1 / 2), ("lunch", exRecipeW1, 1 / 2)],
         [11, 10], ⟨4, 0, 0, 0, 0, 0, 0⟩⟩ := by
  have hps : pickScored 0
      (slotTarget exZeroTargets
        ⟨[("breakfast", exRecipeWB, 1 / 2)], [10],
          ⟨2, 0, 0, 0, 0, 0, 0⟩⟩ "lunch")
      (tierCandidates
        [exRecipeWB, exRecipeW1, exRecipeW2, exRecipeW3, exRecipeW4, exRecipeW5]
        [101, 101] (⟨[("breakfast", exRecipeWB, 1 / 2)], [10],
          ⟨2, 0, 0, 0, 0, 0, 0⟩⟩ : DayState).used_today "lunch")
      = some (exRecipeW1, 1 / 2) := by
    have h1 : slotTarget exZeroTargets
        ⟨[("breakfast", exRecipeWB, 1 / 2)], [10],
          ⟨2, 0, 0, 0, 0, 0, 0⟩⟩ "lunch"
        = ⟨0, 0, 0, 0, 0, 0, 0⟩ := by
      norm_num [slotTarget, _meal_target, MEAL_CALORIE_SPLITS, exZeroTargets,
        (by decide : ("lunch" : String) ≠ "breakfast"),
        (by decide : ("lunch" : String) ≠ "dinner")]
      try (intro h; exact absurd h (by decide))
    have h2 : tierCandidates
        [exRecipeWB, exRecipeW1, exRecipeW2, exRecipeW3, exRecipeW4, exRecipeW5]
        [101, 101] (⟨[("breakfast", exRecipeWB, 1 / 2)], [10],
          ⟨2, 0, 0, 0, 0, 0, 0⟩⟩ : DayState).used_today "lunch"
        = [exRecipeW1, exRecipeW2, exRecipeW3, exRecipeW4, exRecipeW5] := by
      decide
    rw [h1, h2]
    norm_num [pickScored, sortByScoreDesc, insertDesc, _optimal_servings,
      _recipe_score, pyRound, MACRO_SCORE_WEIGHTS, exRecipeW1, exRecipeW2,
      exRecipeW3, exRecipeW4, exRecipeW5, Nutrition.scaled]
  rw [selectSlot_pick_some hps]
  norm_num [Nutrition.add, Nutrition.scaled, Nutrition.zero, exRecipeW1]

theorem exC4W_slot3 :
    selectSlot 0 exZeroTargets
      [exRecipeWB, exRecipeW1, exRecipeW2, exRecipeW3, exRecipeW4, exRecipeW5]
      [101, 101]
      ⟨[("breakfast", exRecipeWB, 1 / 2), ("lunch", exRecipeW1, 1 / 2)],
       [11, 10], ⟨4, 0, 0, 0, 0, 0, 0⟩⟩ "dinner"
      = ⟨[("breakfast", exRecipeWB, 1 / 2), ("lunch", exRecipeW1, 1 / 2),
          ("dinner", exRecipeW2, 1 / 2)],
         [12, 11, 10], ⟨6, 0, 0, 0, 0, 0, 0⟩⟩ := by
  have hps : pickScored 0
      (slotTarget exZeroTargets
        ⟨[("breakfast", exRecipeWB, 1 / 2), ("lunch", exRecipeW1, 1 / 2)],
         [11, 10], ⟨4, 0, 0, 0, 0, 0, 0⟩⟩ "dinner")
      (tierCandidates
        [exRecipeWB, exRecipeW1, exRecipeW2, exRecipeW3, exRecipeW4, exRecipeW5]
        [101, 101]
        (⟨[("breakfast", exRecipeWB, 1 / 2), ("lunch", exRecipeW1, 1 / 2)],
          [11, 10], ⟨4, 0, 0, 0, 0, 0, 0⟩⟩ : DayState).used_today "dinner")
      = some (exRecipeW2, 1 / 2) := by
    have h1 : slotTarget exZeroTargets
        ⟨[("breakfast", exRecipeWB, 1 / 2), ("lunch", exRecipeW1, 1 / 2)],
         [11, 10], ⟨4, 0, 0, 0, 0, 0, 0⟩⟩ "dinner"
        = ⟨0, 0, 0, 0, 0, 0, 0⟩ := by
      norm_num [slotTarget, _meal_target, MEAL_CALORIE_SPLITS, exZeroTargets]
      try (intro h; exact absurd h (by decide))
    have h2 : tierCandidates
        [exRecipeWB, exRecipeW1, exRecipeW2, exRecipeW3, exRecipeW4, exRecipeW5]
        [101, 101]
        (⟨[("breakfast", exRecipeWB, 1 / 2), ("lunch", exRecipeW1, 1 / 2)],
          [11, 10], ⟨4, 0, 0, 0, 0, 0, 0⟩⟩ : DayState).used_today "dinner"
        = [exRecipeW2, exRecipeW3, exRecipeW4, exRecipeW5] := by decide
    rw [h1, h2]
    norm_num [pickScored, sortByScoreDesc, insertDesc, _optimal_servings,
      _recipe_score, pyRound, MACRO_SCORE_WEIGHTS, exRecipeW2, exRecipeW3,
      exRecipeW4, exRecipeW5, Nutrition.scaled]
  rw [selectSlot_pick_some hps]
  norm_num [Nutrition.add, Nutrition.scaled, Nutrition.zero, exRecipeW2]

/-- The 5-candidate witness scenario's daily run. -/
theorem exC4W_daily :
    recommend_daily_meals (fun _ => 0) exZeroTargets
      [exRecipeWB, exRecipeW1, exRecipeW2, exRecipeW3, exRecipeW4, exRecipeW5]
      [101, 101]
      = [("breakfast", exRecipeWB, 1 / 2), ("lunch", exRecipeW1, 1 / 2),
         ("dinner", exRecipeW2, 1 / 2)] := by
  have havail : ([exRecipeWB, exRecipeW1, exRecipeW2, exRecipeW3, exRecipeW4,
      exRecipeW5].filter (fun r => r.nutrition.isSome))
      = [exRecipeWB, exRecipeW1, exRecipeW2, exRecipeW3, exRecipeW4,
         exRecipeW5] := by decide
  simp only [recommend_daily_meals, havail, exC4W_slot1, exC4W_slot2,
    exC4W_slot3]

/-- Evaluation of the witness regeneration: lunch is replaced by the
fresh recipe 11. -/
theorem exC4W_regen :
    (regenerate_meal (fun _ => 0) exC4WDB 1 2 "lunch" exZeroTargets).2
      = some ⟨1, 2, "lunch", 11, 1 / 2⟩ := by
  have hplan : exC4WDB.meal_plans.find? (fun p => p.id == 1)
      = some ⟨1, 1, 0⟩ := rfl
  have hexcl : ((exC4WDB.meal_plan_entries.filter
      (fun e => e.meal_plan_id == 1)).map (fun e => e.recipe_id))
      ++ _get_recently_used_recipe_ids exC4WDB 1 0 VARIETY_WINDOW_DAYS
      = [101, 101] := by decide
  have hrecipes : exC4WDB.recipes
      = [exRecipeWB, exRecipeW1, exRecipeW2, exRecipeW3, exRecipeW4,
         exRecipeW5] := rfl
  have hfind : ([("breakfast", exRecipeWB, (1 / 2 : ℚ)),
      ("lunch", exRecipeW1, 1 / 2), ("dinner", exRecipeW2, 1 / 2)].find?
      (fun t => t.1 == "lunch")) = some ("lunch", exRecipeW1, 1 / 2) := by
    rw [List.find?_cons_of_neg _ (by decide),
      List.find?_cons_of_pos _ (by decide)]
  simp only [regenerate_meal, hplan, hrecipes, hexcl, exC4W_daily, hfind]
  rfl

/-- C4 amended-claim witness: in the 5-candidate scenario the replacement
recipe id (11) is not among the plan's recipe ids. -/
theorem regen_fresh_recipe_witness :
    (⟨1, 2, "lunch", 11, 1 / 2⟩ : MealPlanEntry).recipe_id ∉
      (exC4WDB.meal_plan_entries.filter
        (fun x => x.meal_plan_id == 1)).map (fun x => x.recipe_id) :=
  regen_fresh_recipe (fun _ => 0) exC4WDB 1 2 "lunch" exZeroTargets
    ⟨1, 1, 0⟩ ⟨1, 2, "lunch", 11, 1 / 2⟩ (by decide) (by rfl) (by decide)
    exC4W_regen

/-- C1 (amended): regeneration runs the full three-slot daily pipeline
and takes the tuple of the requested meal type; only for breakfast — the
first slot, which sees an empty same-day exclusion and the full 1/4
fraction target — does this coincide with the claimed single-slot
selection.  The recipe id and the servings of a breakfast regeneration
always equal the single-slot spec's pick. -/
theorem regen_breakfast_single_slot (rng : ℕ → ℕ) (db : DB)
    (plan_id day_of_week : Nat) (targets : MacroTargets) :
    ((regenerate_meal rng db plan_id day_of_week "breakfast" targets).2).map
        (fun e => (e.recipe_id, e.servings))
      = (regen_single_slot_spec rng db plan_id "breakfast" targets).map
        (fun p => (p.1.id, p.2)) := by
  cases hplan : db.meal_plans.find? (fun p => p.id == plan_id) with
  | none =>
    simp only [regenerate_meal, regen_single_slot_spec, hplan,
      Option.map_none']
  | some prow =>
    have hfb : (recommend_daily_meals rng targets db.recipes
        (((db.meal_plan_entries.filter
            (fun x => x.meal_plan_id == plan_id)).map (fun x => x.recipe_id))
          ++ _get_recently_used_recipe_ids db prow.user_id
            prow.week_start_date VARIETY_WINDOW_DAYS)).find?
        (fun t => t.1 == "breakfast")
        = (pickScored (rng 0) (_meal_target targets "breakfast")
            (tierCandidates (db.recipes.filter (fun r => r.nutrition.isSome))
              (((db.meal_plan_entries.filter
                  (fun x => x.meal_plan_id == plan_id)).map
                  (fun x => x.recipe_id))
                ++ _get_recently_used_recipe_ids db prow.user_id
                  prow.week_start_date VARIETY_WINDOW_DAYS) []
              "breakfast")).map (fun p => ("breakfast", p.1, p.2)) :=
      three_slot_find_breakfast (rng 0) (rng 1) (rng 2) targets
        (db.recipes.filter (fun r => r.nutrition.isSome))
        (((db.meal_plan_entries.filter
            (fun x => x.meal_plan_id == plan_id)).map (fun x => x.recipe_id))
          ++ _get_recently_used_recipe_ids db prow.user_id
            prow.week_start_date VARIETY_WINDOW_DAYS) _ _ _ rfl rfl rfl
    cases hpick : pickScored (rng 0) (_meal_target targets "breakfast")
        (tierCandidates (db.recipes.filter (fun r => r.nutrition.isSome))
          (((db.meal_plan_entries.filter
              (fun x => x.meal_plan_id == plan_id)).map
              (fun x => x.recipe_id))
            ++ _get_recently_used_recipe_ids db prow.user_id
              prow.week_start_date VARIETY_WINDOW_DAYS) [] "breakfast") with
    | none =>
      rw [hpick, Option.map_none'] at hfb
      simp only [regenerate_meal, regen_single_slot_spec, hplan, hfb, hpick,
        Option.map_none']
    | some p =>
      rw [hpick, Option.map_some'] at hfb
      simp only [regenerate_meal, regen_single_slot_spec, hplan, hfb, hpick,
        Option.map_some']

/-! ## Concrete scenario: dinner regeneration uses the residual budget -/

/-- Breakfast recipe of the dinner-regeneration scenario. -/
def exRecipeBB : Recipe := ⟨4, "BB", ["breakfast"], some ⟨600, 0, 0, 0, 0, 0, 0⟩⟩

/-- Lunch recipe of the dinner-regeneration scenario. -/
def exRecipeLL : Recipe := ⟨5, "LL", ["lunch"], some ⟨700, 0, 0, 0, 0, 0, 0⟩⟩

/-- Dinner recipe of the dinner-regeneration scenario. -/
def exRecipeDD : Recipe := ⟨6, "DD", ["dinner"], some ⟨200, 0, 0, 0, 0, 0, 0⟩⟩

/-- Database of the dinner-regeneration scenario: the plan's only entry is
dinner on day 0 with recipe 12 (not in the catalog). -/
def exC1DB : DB :=
  ⟨[⟨1, 1, 0⟩], [⟨1, 0, "dinner", 12, 1⟩],
   [exRecipeBB, exRecipeLL, exRecipeDD]⟩

theorem exC1_slot1 :
    selectSlot 0 exTargets1000 [exRecipeBB, exRecipeLL, exRecipeDD] [12, 12]
      ⟨[], [], Nutrition.zero⟩ "breakfast"
      = ⟨[("breakfast", exRecipeBB, 1 / 2)], [4], ⟨300, 0, 0, 0, 0, 0, 0⟩⟩ := by
  have hps : pickScored 0
      (slotTarget exTargets1000 ⟨[], [], Nutrition.zero⟩ "breakfast")
      (tierCandidates [exRecipeBB, exRecipeLL, exRecipeDD] [12, 12]
        (⟨[], [], Nutrition.zero⟩ : DayState).used_today "breakfast")
      = some (exRecipeBB, 1 / 2) := by
    have h1 : slotTarget exTargets1000 ⟨[], [], Nutrition.zero⟩ "breakfast"
        = ⟨250, 0, 0, 0, 0, 0, 0⟩ := by
      norm_num [slotTarget, _meal_target, MEAL_CALORIE_SPLITS, exTargets1000]
      try (intro h; exact absurd h (by decide))
    have h2 : tierCandidates [exRecipeBB, exRecipeLL, exRecipeDD] [12, 12]
        (⟨[], [], Nutrition.zero⟩ : DayState).used_today "breakfast"
        = [exRecipeBB] := by decide
    have hfr : Int.fract ((5 : ℚ) / 3) = 2 / 3 := by norm_num [Int.fract]
    rw [h1, h2]
    norm_num [pickScored, sortByScoreDesc, insertDesc, _optimal_servings,
      _recipe_score, pyRound, MACRO_SCORE_WEIGHTS, exRecipeBB,
      Nutrition.scaled, hfr]
  rw [selectSlot_pick_some hps]
  norm_num [Nutrition.add, Nutrition.scaled, Nutrition.zero, exRecipeBB]

theorem exC1_slot2 :
    selectSlot 0 exTargets1000 [exRecipeBB, exRecipeLL, exRecipeDD] [12, 12]
      ⟨[("breakfast", exRecipeBB, 1 / 2)], [4],
        ⟨300, 0, 0, 0, 0, 0, 0⟩⟩ "lunch"
      = ⟨[("breakfast", exRecipeBB, 1 / 2), ("lunch", exRecipeLL, 1 / 2)],
         [5, 4], ⟨650, 0, 0, 0, 0, 0, 0⟩⟩ := by
  have hps : pickScored 0
      (slotTarget exTargets1000
        ⟨[("breakfast", exRecipeBB, 1 / 2)], [4],
          ⟨300, 0, 0, 0, 0, 0, 0⟩⟩ "lunch")
      (tierCandidates [exRecipeBB, exRecipeLL, exRecipeDD] [12, 12]
        (⟨[("breakfast", exRecipeBB, 1 / 2)], [4],
          ⟨300, 0, 0, 0, 0, 0, 0⟩⟩ : DayState).used_today "lunch")
      = some (exRecipeLL, 1 / 2) := by
    have h1 : slotTarget exTargets1000
        ⟨[("breakfast", exRecipeBB, 1 / 2)], [4],
          ⟨300, 0, 0, 0, 0, 0, 0⟩⟩ "lunch"
        = ⟨350, 0, 0, 0, 0, 0, 0⟩ := by
      norm_num [slotTarget, _meal_target, MEAL_CALORIE_SPLITS, exTargets1000,
        (by decide : ("lunch" : String) ≠ "breakfast"),
        (by decide : ("lunch" : String) ≠ "dinner")]
      try (intro h; exact absurd h (by decide))
    have h2 : tierCandidates [exRecipeBB, exRecipeLL, exRecipeDD] [12, 12]
        (⟨[("breakfast", exRecipeBB, 1 / 2)], [4],
          ⟨300, 0, 0, 0, 0, 0, 0⟩⟩ : DayState).used_today "lunch"
        = [exRecipeLL] := by decide
    rw [h1, h2]
    norm_num [pickScored, sortByScoreDesc, insertDesc, _optimal_servings,
      _recipe_score, pyRound, MACRO_SCORE_WEIGHTS, exRecipeLL,
      Nutrition.scaled]
  rw [selectSlot_pick_some hps]
  norm_num [Nutrition.add, Nutrition.scaled, Nutrition.zero, exRecipeLL]

theorem exC1_slot3 :
    selectSlot 0 exTargets1000 [exRecipeBB, exRecipeLL, exRecipeDD] [12, 12]
      ⟨[("breakfast", exRecipeBB, 1 / 2), ("lunch", exRecipeLL, 1 / 2)],
       [5, 4], ⟨650, 0, 0, 0, 0, 0, 0⟩⟩ "dinner"
      = ⟨[("breakfast", exRecipeBB, 1 / 2), ("lunch", exRecipeLL, 1 / 2),
          ("dinner", exRecipeDD, 7 / 4)],
         [6, 5, 4], ⟨1000, 0, 0, 0, 0, 0, 0⟩⟩ := by
  have hps : pickScored 0
      (slotTarget exTargets1000
        ⟨[("breakfast", exRecipeBB, 1 / 2), ("lunch", exRecipeLL, 1 / 2)],
         [5, 4], ⟨650, 0, 0, 0, 0, 0, 0⟩⟩ "dinner")
      (tierCandidates [exRecipeBB, exRecipeLL, exRecipeDD] [12, 12]
        (⟨[("breakfast", exRecipeBB, 1 / 2), ("lunch", exRecipeLL, 1 / 2)],
          [5, 4], ⟨650, 0, 0, 0, 0, 0, 0⟩⟩ : DayState).used_today "dinner")
      = some (exRecipeDD, 7 / 4) := by
    have h1 : slotTarget exTargets1000
        ⟨[("breakfast", exRecipeBB, 1 / 2), ("lunch", exRecipeLL, 1 / 2)],
         [5, 4], ⟨650, 0, 0, 0, 0, 0, 0⟩⟩ "dinner"
        = ⟨350, 0, 0, 0, 0, 0, 0⟩ := by
      norm_num [slotTarget, _meal_target, MEAL_CALORIE_SPLITS, exTargets1000]
      try (intro h; exact absurd h (by decide))
      try norm_num
    have h2 : tierCandidates [exRecipeBB, exRecipeLL, exRecipeDD] [12, 12]
        (⟨[("breakfast", exRecipeBB, 1 / 2), ("lunch", exRecipeLL, 1 / 2)],
          [5, 4], ⟨650, 0, 0, 0, 0, 0, 0⟩⟩ : DayState).used_today "dinner"
        = [exRecipeDD] := by decide
    rw [h1, h2]
    norm_num [pickScored, sortByScoreDesc, insertDesc, _optimal_servings,
      _recipe_score, pyRound, MACRO_SCORE_WEIGHTS, exRecipeDD,
      Nutrition.scaled]
  rw [selectSlot_pick_some hps]
  norm_num [Nutrition.add, Nutrition.scaled, Nutrition.zero, exRecipeDD]

/-- The dinner-regeneration scenario's daily run: dinner is portioned for
the 350-calorie residual, not the 400-calorie fraction. -/
theorem exC1_daily :
    recommend_daily_meals (fun _ => 0) exTargets1000
      [exRecipeBB, exRecipeLL, exRecipeDD] [12, 12]
      = [("breakfast", exRecipeBB, 1 / 2), ("lunch", exRecipeLL, 1 / 2),
         ("dinner", exRecipeDD, 7 / 4)] := by
  have havail : ([exRecipeBB, exRecipeLL, exRecipeDD].filter
      (fun r => r.nutrition.isSome))
      = [exRecipeBB, exRecipeLL, exRecipeDD] := by decide
  simp only [recommend_daily_meals, havail, exC1_slot1, exC1_slot2, exC1_slot3]

/-- C1 counterexample: regenerating the dinner slot returns recipe 6 at
7/4 servings (scored and portioned against the 350-calorie residual left
by the freshly picked breakfast and lunch), while the claimed single-slot
selection against the full 2/5 fraction (400 calories) returns the same
recipe at 2 servings — the two disagree. -/
theorem regen_dinner_residual_counterexample :
    ((regenerate_meal (fun _ => 0) exC1DB 1 0 "dinner" exTargets1000).2).map
        (fun e => (e.recipe_id, e.servings)) = some (6, 7 / 4) ∧
    (regen_single_slot_spec (fun _ => 0) exC1DB 1 "dinner"
        exTargets1000).map (fun p => (p.1.id, p.2)) = some (6, 2) ∧
    (some ((6 : ℕ), (7 / 4 : ℚ)) ≠ some ((6 : ℕ), (2 : ℚ))) := by
  have hplan : exC1DB.meal_plans.find? (fun p => p.id == 1)
      = some ⟨1, 1, 0⟩ := rfl
  have hexcl : ((exC1DB.meal_plan_entries.filter
      (fun e => e.meal_plan_id == 1)).map (fun e => e.recipe_id))
      ++ _get_recently_used_recipe_ids exC1DB 1 0 VARIETY_WINDOW_DAYS
      = [12, 12] := by decide
  have hrecipes : exC1DB.recipes = [exRecipeBB, exRecipeLL, exRecipeDD] := rfl
  refine ⟨?_, ?_, by simp; norm_num⟩
  · have hfind : ([("breakfast", exRecipeBB, (1 / 2 : ℚ)),
        ("lunch", exRecipeLL, 1 / 2), ("dinner", exRecipeDD, 7 / 4)].find?
        (fun t => t.1 == "dinner")) = some ("dinner", exRecipeDD, 7 / 4) := by
      rw [List.find?_cons_of_neg _ (by decide),
        List.find?_cons_of_neg _ (by decide),
        List.find?_cons_of_pos _ (by decide)]
    simp only [regenerate_meal, hplan, hrecipes, hexcl, exC1_daily, hfind]
    rfl
  · have hcand : tierCandidates
        (exC1DB.recipes.filter (fun r => r.nutrition.isSome)) [12, 12] []
        "dinner" = [exRecipeDD] := by decide
    have htgt : _meal_target exTargets1000 "dinner"
        = ⟨400, 0, 0, 0, 0, 0, 0⟩ := by
      norm_num [_meal_target, MEAL_CALORIE_SPLITS, exTargets1000,
        (by decide : ("dinner" : String) ≠ "breakfast"),
        (by decide : ("dinner" : String) ≠ "lunch")]
    have hpick : pickScored 0 (⟨400, 0, 0, 0, 0, 0, 0⟩ : Nutrition)
        [exRecipeDD] = some (exRecipeDD, 2) := by
      norm_num [pickScored, sortByScoreDesc, insertDesc, _optimal_servings,
        _recipe_score, pyRound, MACRO_SCORE_WEIGHTS, exRecipeDD,
        Nutrition.scaled]
    simp only [regen_single_slot_spec, hplan, hexcl, hcand, htgt, hpick]
    rfl
